import Mathlib

/-!
Verification of the host-facing packet classification and redirection pipeline
of the Cilium BPF host datapath (src/bpf/bpf_host.c, src/bpf/lib/fib.h,
src/bpf/node_config.h).

The C code is shallowly embedded as pure Lean functions.  Each compile-time
feature switch (an `#ifdef` in the source) becomes a boolean field of `Config`,
following the source design note that feature flags are exact branch
conditions.  External collaborators that live outside the three source files
(connection tracking, policy evaluation, local delivery, encapsulation,
the FIB helper, the neighbour map, ...) are modelled as oracle inputs carried
in environment records: the embedding records exactly which oracle result the
code consumes and how its value steers control flow, which is what the claims
are about.  Mutable per-packet state (metadata slots, the per-CPU
connection-tracking transfer buffers) is threaded explicitly through a
`HostState` value.
-/

namespace CiliumHost

/-! ## Identities and configuration constants (src/bpf/node_config.h) -/

def UNKNOWN_ID : Nat := 0
def HOST_ID : Nat := 1
def WORLD_ID : Nat := 2
def UNMANAGED_ID : Nat := 3
def REMOTE_NODE_ID : Nat := 6
def KUBE_APISERVER_NODE_ID : Nat := 7

/-- With both address families enabled (the build of bpf_host.c verified here),
node_config.h sets WORLD_IPV4_ID to 9. -/
def WORLD_IPV4_ID : Nat := 9

/-- With both address families enabled, node_config.h sets WORLD_IPV6_ID to 10. -/
def WORLD_IPV6_ID : Nat := 10

def CIDR_IDENTITY_RANGE_START : Nat := (1 <<< 24) + 1
def CIDR_IDENTITY_RANGE_END : Nat := (1 <<< 24) + (1 <<< 16) - 1

/-- node_config.h: VTEP_MASK 0xffffff. -/
def VTEP_MASK : Nat := 0xffffff

/-! ## Verdict codes.

Modelled from the spec: transitions are explicit verdict codes, CTX_ACT_OK
continues to the OS stack, CTX_ACT_REDIRECT/CTX_ACT_TX are terminal sends, and
negative values are drops carrying a reason (the headers defining the numeric
values are not part of src/).  Only the sign and mutual distinctness of the
codes are relied upon: IS_ERR(x) in the source is x < 0. -/

def CTX_ACT_OK : Int := 0
def CTX_ACT_DROP : Int := 2
def CTX_ACT_TX : Int := 6
def CTX_ACT_REDIRECT : Int := 7

def DROP_INVALID : Int := -134
def DROP_WRITE_ERROR : Int := -141
def DROP_UNKNOWN_L3 : Int := -143
def DROP_UNSUPPORTED_L2 : Int := -146
def DROP_NO_FIB : Int := -147
def DROP_UNROUTABLE : Int := -150
def DROP_FRAG_NOSUPPORT : Int := -153
def DROP_VLAN_FILTERED : Int := -164
def DROP_INVALID_TC_BUFFER : Int := -172
def DROP_NO_TUNNEL_ENDPOINT : Int := -133
def DROP_MISSED_TAIL_CALL : Int := -138

/-- Modelled from the spec: sentinel returned by the ICMPv6 handler meaning
"skip the host firewall for this packet" (lib/icmp6.h is not in src/).  It is
a non-error, non-verdict sentinel; only distinctness matters. -/
def SKIP_HOST_FIREWALL : Int := 3

/-- Modelled from the spec: sentinel returned by nodeport_lb4 asking for
recirculation into the IPv6 path (NAT 46x64); a positive non-verdict code. -/
def NAT_46X64_RECIRC : Int := 100

/-! ## Ethertypes and FIB result codes.

Modelled from the spec: standard wire and kernel UAPI constants referenced by
the source (the defining headers are not in src/). -/

def ETH_P_IP : Nat := 0x0800
def ETH_P_ARP : Nat := 0x0806
def ETH_P_IPV6 : Nat := 0x86DD

def AF_INET : Nat := 2
def AF_INET6 : Nat := 10

def BPF_FIB_LKUP_RET_SUCCESS : Int := 0
def BPF_FIB_LKUP_RET_NO_NEIGH : Int := 7

/-- Modelled from the spec: the extended sub-reason recorded when the static
neighbour table has no entry for the destination (value not in src/). -/
def BPF_FIB_MAP_NO_NEIGH : Int := 4

/-! ## Mark magic values and metadata flags.

The FROM_HOST flag bits are defined in src/bpf/bpf_host.c itself; the
MARK_MAGIC_* values are modelled from the spec (lib/common.h is not in src/):
distinct small tag values multiplexed through the packet mark. -/

def FROM_HOST_FLAG_NEED_HOSTFW : Nat := 1 <<< 1
def FROM_HOST_FLAG_HOST_ID : Nat := 1 <<< 2

def MARK_MAGIC_HOST_MASK : Nat := 0xF00
def MARK_MAGIC_PROXY_INGRESS : Nat := 0xA00
def MARK_MAGIC_PROXY_EGRESS : Nat := 0xB00
def MARK_MAGIC_HOST : Nat := 0xC00
def MARK_MAGIC_IDENTITY : Nat := 0xF00
def MARK_MAGIC_OVERLAY : Nat := 0x400
def MARK_MAGIC_EGW_DONE : Nat := 0x500
def MARK_MAGIC_PROXY_EGRESS_EPID : Nat := 0x900
def MARK_MAGIC_PROXY_TO_WORLD : Nat := 0x800

/-- Modelled from the spec: flag bit marking a local endpoint record whose
address belongs to the node itself (host delivery); lib/eps.h is not in src/.
Only used as a mask test. -/
def ENDPOINT_MASK_HOST_DELIVERY : Nat := 1

/-! ## Identity classification predicates.

Modelled from the spec: lib/identity.h is not in src/.  The spec describes the
in-band identity gate as membership in "a small set of reserved placeholder
values (meaning not yet resolved)"; node_config.h enumerates the reserved
identities.  Real (endpoint) identities such as 50 or 12345 are not reserved;
the placeholder 0 (unknown) and the world identities are. -/

def identity_is_world_ipv4 (id : Nat) : Bool :=
  id == WORLD_ID || id == WORLD_IPV4_ID

def identity_is_world_ipv6 (id : Nat) : Bool :=
  id == WORLD_ID || id == WORLD_IPV6_ID

def identity_is_remote_node (id : Nat) : Bool :=
  id == REMOTE_NODE_ID || id == KUBE_APISERVER_NODE_ID

def identity_is_reserved (id : Nat) : Bool :=
  id < UNMANAGED_ID || identity_is_remote_node id ||
  identity_is_world_ipv4 id || identity_is_world_ipv6 id

/-- Modelled from the spec: an identity belongs to the cluster when it is not
one of the world identities and not in the CIDR identity range. -/
def identity_is_cluster (id : Nat) : Bool :=
  !(identity_is_world_ipv4 id || identity_is_world_ipv6 id ||
    (CIDR_IDENTITY_RANGE_START ≤ id && id ≤ CIDR_IDENTITY_RANGE_END))

/-! ## Data model -/

/-- An IPv6 address as the two 64-bit halves d1/d2 used by the zero test in
handle_ipv6_cont. -/
structure V6Addr where
  d1 : Nat
  d2 : Nat
deriving Repr, DecidableEq, Inhabited

/-- Remote-endpoint (ipcache) record: security identity plus tunnel flags
(src/bpf/bpf_host.c reads fields sec_identity, flag_skip_tunnel,
flag_has_tunnel_ep). -/
structure RemoteEndpointInfo where
  sec_identity : Nat
  flag_skip_tunnel : Bool
  flag_has_tunnel_ep : Bool
deriving Repr, DecidableEq, Inhabited

/-- Local endpoint record: interface index, delivery flags, security id. -/
structure EndpointInfo where
  ifindex : Nat
  flags : Nat
  sec_id : Nat
deriving Repr, DecidableEq, Inhabited

/-- Connection-tracking transfer buffer for IPv4 (struct ct_buffer4).  The
fields the pipeline itself inspects are the tuple source address (zero test)
and the lookup return code; the remaining lookup payload is abstracted into
one opaque word. -/
structure CtBuffer4 where
  tuple_saddr : Nat
  ret : Int
  rest : Nat
deriving Repr, DecidableEq, Inhabited

/-- Connection-tracking transfer buffer for IPv6 (struct ct_buffer6). -/
structure CtBuffer6 where
  tuple_saddr : V6Addr
  ret : Int
  rest : Nat
deriving Repr, DecidableEq, Inhabited

/-- The packet context: frame-derived fields (addresses, VLAN tag, ethertype),
the skb mark, attachment metadata and the per-packet metadata slots
(CB_FROM_HOST, CB_SRC_LABEL, CB_IPCACHE_SRC_LABEL) that chained fragments use
in place of a call stack. -/
structure Ctx where
  saddr4 : Nat
  daddr4 : Nat
  saddr6 : V6Addr
  daddr6 : V6Addr
  proto : Nat
  vlan_present : Bool
  vlan_tci : Nat
  ifindex : Nat
  mark : Nat
  mark_identity : Nat
  mark_is_wireguard : Bool
  snat_done : Bool
  tc_index_ingress_proxy : Bool
  tc_index_egress_proxy : Bool
  cb_from_host : Nat
  cb_src_label : Nat
  cb_ipcache_src_label : Nat
deriving Repr, DecidableEq, Inhabited

/-- The frame contents proper (used to state that a path leaves the frame
unmodified: metadata slots and the mark are skb metadata, not frame bytes). -/
def Ctx.frame (c : Ctx) : Nat × Nat × V6Addr × V6Addr × Nat × Bool × Nat :=
  (c.saddr4, c.daddr4, c.saddr6, c.daddr6, c.proto, c.vlan_present, c.vlan_tci)

/-- bpf_clear_meta: zeroes the metadata slots. -/
def clearMeta (c : Ctx) : Ctx :=
  { c with cb_from_host := 0, cb_src_label := 0, cb_ipcache_src_label := 0 }

/-- Per-packet processing state: the packet context plus the CPU-local
single-slot transfer buffers (cilium_tail_call_buffer4/6). -/
structure HostState where
  ctx : Ctx
  buf4 : Option CtBuffer4
  buf6 : Option CtBuffer6
deriving Repr, DecidableEq, Inhabited

/-- A drop notification record: source identity, drop reason, extended
sub-reason (spec section 7: emitted by the outermost entry point on error). -/
structure DropNotif where
  src_id : Nat
  reason : Int
  ext_err : Int
deriving Repr, DecidableEq, Inhabited

/-- Feature switches of the build, one boolean per `#ifdef` family the claims
exercise (spec design note: feature flags become runtime configuration with
exact branch semantics). -/
structure Config where
  secctx_from_ipcache : Bool
  enableHostFirewall : Bool
  enableHostRouting : Bool
  enableIPv4Fragments : Bool
  enableIPv6Fragments : Bool
  enableNodeport : Bool
  enableIPv6 : Bool
  tunnelMode : Bool
  enableVtep : Bool
  enableSrv6 : Bool
  enableIpsec : Bool
  enableL7LB : Bool
  enableEgressGw : Bool
  enableMasqueradeIPv4 : Bool
  enableMasqueradeIPv6 : Bool
deriving Repr, DecidableEq, Inhabited

/-! ## Source-identity resolver (bpf_host.c resolve_srcid_ipv4 / _ipv6) -/

/-- Shallow embedding of resolve_srcid_ipv4 (src/bpf/bpf_host.c lines
531-568).  The remote-endpoint table is the injected read-only ipcache
collaborator; the function reads the packet source address, never writes the
context, and returns (src_id, sec_identity out-parameter, context). -/
def resolve_srcid_ipv4 (cfg : Config) (ipcache4 : Nat → Option RemoteEndpointInfo)
    (ctx : Ctx) (srcid_from_proxy : Nat) (sec_identity : Nat)
    (from_host : Bool) : Nat × Nat × Ctx :=
  let src_id := WORLD_IPV4_ID
  let srcid_from_ipcache := srcid_from_proxy
  let looked :=
    if identity_is_reserved srcid_from_ipcache then
      match ipcache4 ctx.saddr4 with
      | some info =>
        let sec_identity := info.sec_identity
        let srcid_from_ipcache :=
          if info.sec_identity ≠ HOST_ID then info.sec_identity
          else srcid_from_ipcache
        (srcid_from_ipcache, sec_identity)
      | none => (srcid_from_ipcache, sec_identity)
    else (srcid_from_ipcache, sec_identity)
  let src_id :=
    if from_host then looked.1
    else if cfg.secctx_from_ipcache then looked.1
    else src_id
  (src_id, looked.2, ctx)

/-- Shallow embedding of resolve_srcid_ipv6 (src/bpf/bpf_host.c lines
89-125); identical control flow with the IPv6 table and world identity. -/
def resolve_srcid_ipv6 (cfg : Config) (ipcache6 : V6Addr → Option RemoteEndpointInfo)
    (ctx : Ctx) (srcid_from_ipcache0 : Nat) (sec_identity : Nat)
    (from_host : Bool) : Nat × Nat × Ctx :=
  let src_id := WORLD_IPV6_ID
  let srcid_from_ipcache := srcid_from_ipcache0
  let looked :=
    if identity_is_reserved srcid_from_ipcache then
      match ipcache6 ctx.saddr6 with
      | some info =>
        let sec_identity := info.sec_identity
        let srcid_from_ipcache :=
          if info.sec_identity ≠ HOST_ID then info.sec_identity
          else srcid_from_ipcache
        (srcid_from_ipcache, sec_identity)
      | none => (srcid_from_ipcache, sec_identity)
    else (srcid_from_ipcache, sec_identity)
  let src_id :=
    if from_host then looked.1
    else if cfg.secctx_from_ipcache then looked.1
    else src_id
  (src_id, looked.2, ctx)

/-! ## Host-firewall pre-check phase (bpf_host.c handle_ipv4 / handle_ipv6)

The pre-check phase performs the connection-tracking lookup only, stores the
result into the CPU-local transfer buffer when enforcement is needed, and
records the need-enforcement / is-host-identity bits in the CB_FROM_HOST
metadata slot.  External calls are oracles: `revalidateOk` is the header
revalidation, `egressLookup`/`ingressLookup` return the filled ct_buffer when
the corresponding policy-lookup helper reports a hit, `mapUpdateFails` is the
map_update_elem failure (resource exhaustion), the nodeport fields summarize
the nodeport_lb outcome on the ingress path. -/

structure Env4 where
  revalidateOk : Bool
  fragIsFragment : Bool
  skipNodeport : Bool
  nodeportRet : Int
  nodeportPunt : Bool
  recircTailRet : Int
  egressLookup : Option CtBuffer4
  ingressLookup : Option CtBuffer4
  skipHostFw : Bool
  mapUpdateFails : Bool
deriving Repr, DecidableEq, Inhabited

structure Env6 where
  revalidateOk : Bool
  fraginfoErr : Option Int
  fragIsFragment : Bool
  hdrlenErr : Option Int
  isIcmp6 : Bool
  icmpRet : Int
  skipNodeport : Bool
  nodeportRet : Int
  nodeportPunt : Bool
  egressLookup : Option CtBuffer6
  ingressLookup : Option CtBuffer6
  skipHostFw : Bool
  mapUpdateFails : Bool
deriving Repr, DecidableEq, Inhabited

/-- Shallow embedding of handle_ipv4 (src/bpf/bpf_host.c lines 577-668). -/
def handle_ipv4 (cfg : Config) (env : Env4) (secctx ipcache_srcid : Nat)
    (from_host : Bool) (st : HostState) : Int × HostState :=
  let _ := ipcache_srcid
  if !env.revalidateOk then (DROP_INVALID, st)
  else if !cfg.enableIPv4Fragments && env.fragIsFragment then
    (DROP_FRAG_NOSUPPORT, st)
  else
    let nodeportEarly : Option Int :=
      if cfg.enableNodeport && !from_host && !env.skipNodeport then
        if cfg.enableIPv6 && env.nodeportRet = NAT_46X64_RECIRC then
          some env.recircTailRet
        else if env.nodeportRet < 0 || env.nodeportRet = CTX_ACT_REDIRECT then
          some env.nodeportRet
        else if env.nodeportPunt then some env.nodeportRet
        else none
      else none
    match nodeportEarly with
    | some r => (r, st)
    | none =>
      if cfg.enableHostFirewall then
        let lk : Sum Int (Option (CtBuffer4 × Bool)) :=
          if from_host then
            match env.egressLookup with
            | some cb =>
              if cb.ret < 0 then Sum.inl cb.ret
              else Sum.inr (some (cb, secctx = HOST_ID))
            | none => Sum.inr none
          else if !env.skipHostFw then
            match env.ingressLookup with
            | some cb =>
              if cb.ret < 0 then Sum.inl cb.ret
              else Sum.inr (some (cb, false))
            | none => Sum.inr none
          else Sum.inr none
        match lk with
        | Sum.inl e => (e, st)
        | Sum.inr none =>
          (CTX_ACT_OK, { st with ctx := { st.ctx with cb_from_host := 0 } })
        | Sum.inr (some (cb, is_host_id)) =>
          if env.mapUpdateFails then (DROP_INVALID_TC_BUFFER, st)
          else
            let flags := FROM_HOST_FLAG_NEED_HOSTFW +
              (if is_host_id then FROM_HOST_FLAG_HOST_ID else 0)
            (CTX_ACT_OK,
             { st with buf4 := some cb,
                       ctx := { st.ctx with cb_from_host := flags } })
      else (CTX_ACT_OK, st)

/-- Shallow embedding of handle_ipv6 (src/bpf/bpf_host.c lines 134-241),
including the ICMPv6 skip-host-firewall path. -/
def handle_ipv6 (cfg : Config) (env : Env6) (secctx ipcache_srcid : Nat)
    (from_host : Bool) (st : HostState) : Int × HostState :=
  let _ := ipcache_srcid
  if !env.revalidateOk then (DROP_INVALID, st)
  else
    let fragEarly : Option Int :=
      if !cfg.enableIPv6Fragments then
        match env.fraginfoErr with
        | some e => some e
        | none => if env.fragIsFragment then some DROP_FRAG_NOSUPPORT else none
      else none
    match fragEarly with
    | some r => (r, st)
    | none =>
      let icmpStep : Sum Int Bool :=
        if cfg.enableHostFirewall || !from_host then
          match env.hdrlenErr with
          | some e => Sum.inl e
          | none =>
            if env.isIcmp6 then
              if env.icmpRet = SKIP_HOST_FIREWALL then Sum.inr true
              else if env.icmpRet < 0 then Sum.inl env.icmpRet
              else Sum.inr false
            else Sum.inr false
        else Sum.inr false
      match icmpStep with
      | Sum.inl e => (e, st)
      | Sum.inr skip_host_firewall =>
        let nodeportEarly : Option Int :=
          if cfg.enableNodeport && !from_host && !env.skipNodeport then
            if env.nodeportRet < 0 || env.nodeportRet = CTX_ACT_REDIRECT then
              some env.nodeportRet
            else if env.nodeportPunt then some env.nodeportRet
            else none
          else none
        match nodeportEarly with
        | some r => (r, st)
        | none =>
          if cfg.enableHostFirewall then
            if skip_host_firewall then
              (CTX_ACT_OK, { st with ctx := { st.ctx with cb_from_host := 0 } })
            else
              let lk : Sum Int (Option (CtBuffer6 × Bool)) :=
                if from_host then
                  match env.egressLookup with
                  | some cb =>
                    if cb.ret < 0 then Sum.inl cb.ret
                    else Sum.inr (some (cb, secctx = HOST_ID))
                  | none => Sum.inr none
                else if !env.skipHostFw then
                  match env.ingressLookup with
                  | some cb =>
                    if cb.ret < 0 then Sum.inl cb.ret
                    else Sum.inr (some (cb, false))
                  | none => Sum.inr none
                else Sum.inr none
              match lk with
              | Sum.inl e => (e, st)
              | Sum.inr none =>
                (CTX_ACT_OK, { st with ctx := { st.ctx with cb_from_host := 0 } })
              | Sum.inr (some (cb, is_host_id)) =>
                if env.mapUpdateFails then (DROP_INVALID_TC_BUFFER, st)
                else
                  let flags := FROM_HOST_FLAG_NEED_HOSTFW +
                    (if is_host_id then FROM_HOST_FLAG_HOST_ID else 0)
                  (CTX_ACT_OK,
                   { st with buf6 := some cb,
                             ctx := { st.ctx with cb_from_host := flags } })
          else (CTX_ACT_OK, st)

/-! ## Host-firewall apply phase and local/remote routing
(bpf_host.c handle_ipv4_cont / handle_ipv6_cont)

Reached after the chain boundary.  The policy application helpers
(__ipv4_host_policy_egress / __ipv4_host_policy_ingress and the IPv6 pair) are
external collaborators and appear as oracle functions of the transfer-buffer
value they consume; local delivery, L2 synthesis, VTEP and tunnel
encapsulation are verdict oracles. -/

structure ContEnv4 where
  revalidateOk : Bool
  egressApply : CtBuffer4 → Bool → Int
  ingressApply : CtBuffer4 → Int
  revalidateOk2 : Bool
  epLookup : Option EndpointInfo
  addL2Ret : Int
  localDeliveryRet : Int
  vtepLookup : Option (Nat × Nat)
  vtepWriteFails : Bool
  vtepEncapRet : Int
  encapRet : Int
deriving Inhabited

structure ContEnv6 where
  revalidateOk : Bool
  egressApply : CtBuffer6 → Bool → Int
  ingressApply : CtBuffer6 → Int
  revalidateOk2 : Bool
  isSrv6SidHit : Bool
  srv6TailRet : Int
  epLookup : Option EndpointInfo
  addL2Ret : Int
  localDeliveryRet : Int
  encapRet : Int
deriving Inhabited

/-- Shallow embedding of handle_ipv4_cont (src/bpf/bpf_host.c lines
670-854). -/
def handle_ipv4_cont (cfg : Config) (env : ContEnv4)
    (ipcache4 : Nat → Option RemoteEndpointInfo)
    (secctx : Nat) (from_host : Bool) (st : HostState) : Int × HostState :=
  let _ := secctx
  let from_proxy := from_host &&
    (st.ctx.tc_index_ingress_proxy || st.ctx.tc_index_egress_proxy)
  if !env.revalidateOk then (DROP_INVALID, st)
  else
    let raw := if cfg.enableHostFirewall then st.ctx.cb_from_host else 0
    let st1 :=
      if cfg.enableHostFirewall then
        { st with ctx := { st.ctx with cb_from_host := 0 } }
      else st
    let hostfw : Option Int :=
      if cfg.enableHostFirewall && raw &&& FROM_HOST_FLAG_NEED_HOSTFW ≠ 0 then
        match st1.buf4 with
        | none => some DROP_INVALID_TC_BUFFER
        | some ct_buffer =>
          if ct_buffer.tuple_saddr = 0 then some DROP_INVALID_TC_BUFFER
          else
            let ret :=
              if from_host then
                env.egressApply ct_buffer (raw &&& FROM_HOST_FLAG_HOST_ID ≠ 0)
              else env.ingressApply ct_buffer
            if ret < 0 || ret = CTX_ACT_REDIRECT then some ret
            else if from_host && !env.revalidateOk2 then some DROP_INVALID
            else none
      else none
    match hostfw with
    | some r => (r, st1)
    | none =>
      if !cfg.enableHostRouting && !from_host then (CTX_ACT_OK, st1)
      else
        match env.epLookup with
        | some ep =>
          if ep.flags &&& ENDPOINT_MASK_HOST_DELIVERY ≠ 0 then (CTX_ACT_OK, st1)
          else if cfg.enableHostRouting && !from_host && env.addL2Ret ≠ 0 then
            (env.addL2Ret, st1)
          else (env.localDeliveryRet, st1)
        | none =>
          if !from_host then (CTX_ACT_OK, st1)
          else
            let vtepEarly : Option Int :=
              if cfg.enableVtep then
                match env.vtepLookup with
                | some (vtep_mac, tunnel_endpoint) =>
                  if vtep_mac ≠ 0 && tunnel_endpoint ≠ 0 then
                    if env.vtepWriteFails then some DROP_WRITE_ERROR
                    else some env.vtepEncapRet
                  else none
                | none => none
              else none
            match vtepEarly with
            | some r => (r, st1)
            | none =>
              let info := ipcache4 st1.ctx.daddr4
              let tunnelEarly : Option Int :=
                if cfg.tunnelMode then
                  match info with
                  | some i =>
                    if i.flag_skip_tunnel then none
                    else if i.flag_has_tunnel_ep then some env.encapRet
                    else none
                  | none => none
                else none
              match tunnelEarly with
              | some r => (r, st1)
              | none =>
                match info with
                | none => (DROP_UNROUTABLE, st1)
                | some i =>
                  if !from_proxy && identity_is_world_ipv4 i.sec_identity then
                    (DROP_UNROUTABLE, st1)
                  else
                    let st2 :=
                      if cfg.enableIpsec && !cfg.tunnelMode && from_proxy &&
                         !identity_is_cluster i.sec_identity then
                        { st1 with ctx :=
                          { st1.ctx with mark := MARK_MAGIC_PROXY_TO_WORLD } }
                      else st1
                    (CTX_ACT_OK, st2)

/-- Shallow embedding of handle_ipv6_cont (src/bpf/bpf_host.c lines
243-394). -/
def handle_ipv6_cont (cfg : Config) (env : ContEnv6)
    (ipcache6 : V6Addr → Option RemoteEndpointInfo)
    (secctx : Nat) (from_host : Bool) (st : HostState) : Int × HostState :=
  let _ := secctx
  let from_proxy := from_host &&
    (st.ctx.tc_index_ingress_proxy || st.ctx.tc_index_egress_proxy)
  if !env.revalidateOk then (DROP_INVALID, st)
  else
    let raw := if cfg.enableHostFirewall then st.ctx.cb_from_host else 0
    let st1 :=
      if cfg.enableHostFirewall then
        { st with ctx := { st.ctx with cb_from_host := 0 } }
      else st
    let hostfw : Option Int :=
      if cfg.enableHostFirewall && raw &&& FROM_HOST_FLAG_NEED_HOSTFW ≠ 0 then
        match st1.buf6 with
        | none => some DROP_INVALID_TC_BUFFER
        | some ct_buffer =>
          if ct_buffer.tuple_saddr.d1 = 0 && ct_buffer.tuple_saddr.d2 = 0 then
            some DROP_INVALID_TC_BUFFER
          else
            let ret :=
              if from_host then
                env.egressApply ct_buffer (raw &&& FROM_HOST_FLAG_HOST_ID ≠ 0)
              else env.ingressApply ct_buffer
            if ret < 0 || ret = CTX_ACT_REDIRECT then some ret
            else if from_host && !env.revalidateOk2 then some DROP_INVALID
            else none
      else none
    match hostfw with
    | some r => (r, st1)
    | none =>
      if cfg.enableSrv6 && !from_host && env.isSrv6SidHit then
        (env.srv6TailRet, st1)
      else if !cfg.enableHostRouting && !from_host then (CTX_ACT_OK, st1)
      else
        match env.epLookup with
        | some ep =>
          if ep.flags &&& ENDPOINT_MASK_HOST_DELIVERY ≠ 0 then (CTX_ACT_OK, st1)
          else if cfg.enableHostRouting && !from_host && env.addL2Ret ≠ 0 then
            (env.addL2Ret, st1)
          else (env.localDeliveryRet, st1)
        | none =>
          if !from_host then (CTX_ACT_OK, st1)
          else
            let info := ipcache6 st1.ctx.daddr6
            let tunnelEarly : Option Int :=
              if cfg.tunnelMode then
                match info with
                | some i =>
                  if i.flag_skip_tunnel then none
                  else if i.flag_has_tunnel_ep then some env.encapRet
                  else none
                | none => none
              else none
            match tunnelEarly with
            | some r => (r, st1)
            | none =>
              match info with
              | none => (DROP_UNROUTABLE, st1)
              | some i =>
                if !from_proxy && identity_is_world_ipv6 i.sec_identity then
                  (DROP_UNROUTABLE, st1)
                else
                  let st2 :=
                    if cfg.enableIpsec && !cfg.tunnelMode && from_proxy &&
                       !identity_is_cluster i.sec_identity then
                      { st1 with ctx :=
                        { st1.ctx with mark := MARK_MAGIC_PROXY_TO_WORLD } }
                    else st1
                  (CTX_ACT_OK, st2)

/-! ## FIB redirect engine (src/bpf/lib/fib.h fib_do_redirect) -/

/-- FIB lookup parameters/result relevant to fib_do_redirect: family, the
destination addresses the neighbour map is keyed by, and the L2 addresses
filled in on a successful lookup. -/
structure FibParams where
  family : Nat
  ipv4_dst : Nat
  ipv6_dst : V6Addr
  dmac : Nat
  smac : Nat
deriving Repr, DecidableEq, Inhabited

/-- Next-hop parameters handed to redirect_neigh, built from fib_params. -/
structure FibNh where
  nh_family : Nat
  ipv6_nh : V6Addr
deriving Repr, DecidableEq, Inhabited

/-- Oracles for fib_do_redirect.  `neighAvailable` is
neigh_resolver_available(); `redirectNeigh` and `ctxRedirect` are the two
kernel redirect helpers, distinguished by which oracle the result comes from;
`neighMap4`/`neighMap6` are the static neighbour tables keyed by destination
address; `ethHlenZero` is the ETH_HLEN == 0 trait of the attachment device
(node_config.h pins IS_L3_DEV to false, so the L2 check never bypasses the
redirect switch). -/
structure FibEnv where
  neighAvailable : Bool
  redirectNeigh : Nat → Option FibNh → Int
  ctxRedirect : Nat → Int
  neighMap4 : Nat → Option Nat
  neighMap6 : V6Addr → Option Nat
  ethHlenZero : Bool
  changeHeadFails : Bool
  storeProtoFails : Bool
  ethStoreFails : Bool
deriving Inhabited

/-- Shallow embedding of fib_do_redirect (src/bpf/lib/fib.h lines 77-147).
Returns the verdict together with the (possibly updated) extended error.
With IS_L3_DEV false (node_config.h), maybe_add_l2_hdr only acts when the
device has no L2 header (ETH_HLEN == 0), in which case add_l2_hdr may fail. -/
def fib_do_redirect (env : FibEnv) (needs_l2_check : Bool)
    (fib_params : Option FibParams) (allow_neigh_map : Bool)
    (fib_result : Int) (oif : Nat) (ext_err : Int) : Int × Int :=
  let l2Early : Option Int :=
    if needs_l2_check && env.ethHlenZero then
      if env.changeHeadFails then some DROP_INVALID
      else if env.storeProtoFails then some DROP_WRITE_ERROR
      else none
    else none
  match l2Early with
  | some r => (r, ext_err)
  | none =>
    if fib_result = BPF_FIB_LKUP_RET_SUCCESS then
      if env.ethStoreFails then (DROP_WRITE_ERROR, ext_err)
      else (env.ctxRedirect oif, ext_err)
    else if fib_result = BPF_FIB_LKUP_RET_NO_NEIGH then
      if env.neighAvailable then
        match fib_params with
        | some fp =>
          (env.redirectNeigh oif (some { nh_family := fp.family,
                                         ipv6_nh := fp.ipv6_dst }), ext_err)
        | none => (env.redirectNeigh oif none, ext_err)
      else
        let dmac : Option Nat :=
          if allow_neigh_map then
            match fib_params with
            | some fp =>
              if fp.family = AF_INET then env.neighMap4 fp.ipv4_dst
              else env.neighMap6 fp.ipv6_dst
            | none => none
          else none
        match dmac with
        | none => (DROP_NO_FIB, BPF_FIB_MAP_NO_NEIGH)
        | some _ =>
          if env.ethStoreFails then (DROP_WRITE_ERROR, ext_err)
          else (env.ctxRedirect oif, ext_err)
    else (env.ctxRedirect oif, ext_err)

/-! ## VLAN allow-list (node_config.h VLAN_FILTER, bpf_host.c allow_vlan) -/

/-- Shallow embedding of the VLAN_FILTER macro instantiated in
src/bpf/node_config.h lines 217-234: ifindex 116 allows VLANs 4000 and 4001,
ifindex 117 allows 4003, 4004 and 4005, everything else is refused. -/
def allow_vlan (ifindex vlan_id : Nat) : Bool :=
  if ifindex = 116 then vlan_id = 4000 || vlan_id = 4001
  else if ifindex = 117 then vlan_id = 4003 || vlan_id = 4004 || vlan_id = 4005
  else false

/-! ## do_netdev and the physical-ingress entry point (bpf_host.c) -/

/-- Oracles for do_netdev: the ARP/L2-announcement branch outcome, header
revalidation, and the chain continuation.  `tailCall4`/`tailCall6` model
tail_call_internal: `none` means the tail call succeeded and control
transferred into the chain (whose eventual verdict is `chainResult`); `some e`
means the continuation failed with error e (missed tail call). -/
structure NetdevEnv where
  arpRet : Int
  revalidateOk : Bool
  tailCall4 : Option Int
  tailCall6 : Option Int
  chainResult4 : Int
  chainResult6 : Int
  extErr : Int
deriving Repr, DecidableEq, Inhabited

/-- Shallow embedding of do_netdev (src/bpf/bpf_host.c lines 1086-1232) for
the build with the ARP responder enabled (node_config.h).  Returns (verdict,
emitted drop notification, context).  On the IPv4/IPv6 paths a failed chain
continuation is funneled through
send_drop_notify_error_with_exitcode_ext(..., CTX_ACT_OK, ...), which emits
the notification and returns the CTX_ACT_OK exit code. -/
def do_netdev (cfg : Config) (env : NetdevEnv)
    (ipcache4 : Nat → Option RemoteEndpointInfo)
    (ipcache6 : V6Addr → Option RemoteEndpointInfo)
    (ctx0 : Ctx) (proto : Nat) (identity : Nat) (from_host : Bool) :
    Int × Option DropNotif × Ctx :=
  let ctx := clearMeta ctx0
  if proto = ETH_P_ARP then (env.arpRet, none, ctx)
  else if proto = ETH_P_IPV6 then
    if !env.revalidateOk then
      (CTX_ACT_DROP, some { src_id := identity, reason := DROP_INVALID,
                            ext_err := 0 }, ctx)
    else
      let r := resolve_srcid_ipv6 cfg ipcache6 ctx identity 0 from_host
      let identity := r.1
      let ipcache_srcid := r.2.1
      let ctx := { ctx with cb_src_label := identity }
      let ctx :=
        if cfg.enableHostFirewall && !cfg.enableMasqueradeIPv6 && from_host then
          { ctx with cb_ipcache_src_label := ipcache_srcid }
        else ctx
      match env.tailCall6 with
      | none => (env.chainResult6, none, ctx)
      | some e =>
        (CTX_ACT_OK, some { src_id := identity, reason := e,
                            ext_err := env.extErr }, ctx)
  else if proto = ETH_P_IP then
    if !env.revalidateOk then
      (CTX_ACT_DROP, some { src_id := identity, reason := DROP_INVALID,
                            ext_err := 0 }, ctx)
    else
      let r := resolve_srcid_ipv4 cfg ipcache4 ctx identity 0 from_host
      let identity := r.1
      let ipcache_srcid := r.2.1
      let ctx := { ctx with cb_src_label := identity }
      let ctx :=
        if cfg.enableHostFirewall && !cfg.enableMasqueradeIPv4 && from_host then
          { ctx with cb_ipcache_src_label := ipcache_srcid }
        else ctx
      match env.tailCall4 with
      | none => (env.chainResult4, none, ctx)
      | some e =>
        (CTX_ACT_OK, some { src_id := identity, reason := e,
                            ext_err := env.extErr }, ctx)
  else
    if cfg.enableHostFirewall then
      (CTX_ACT_DROP, some { src_id := identity, reason := DROP_UNKNOWN_L3,
                            ext_err := 0 }, ctx)
    else (CTX_ACT_OK, none, ctx)

/-- Shallow embedding of the VLAN prologue of cil_from_netdev
(src/bpf/bpf_host.c lines 1241-1309).  A frame carrying a non-zero VLAN id is
either passed back to the kernel unmodified (allow-listed) or dropped as
VLAN-filtered; all other frames continue into the rest of the entry point,
abstracted as the continuation `rest`. -/
def cil_from_netdev (rest : Ctx → Int × Option DropNotif × Ctx) (ctx : Ctx) :
    Int × Option DropNotif × Ctx :=
  if ctx.vlan_present && ctx.vlan_tci &&& 0xfff ≠ 0 then
    if allow_vlan ctx.ifindex (ctx.vlan_tci &&& 0xfff) then
      (CTX_ACT_OK, none, ctx)
    else
      (CTX_ACT_DROP, some { src_id := UNKNOWN_ID, reason := DROP_VLAN_FILTERED,
                            ext_err := 0 }, ctx)
  else rest ctx

/-! ## Physical-egress entry point (bpf_host.c cil_to_netdev) -/

/-- Oracles for cil_to_netdev: the L7 LB egress-policy tail call, the two
host-firewall egress handlers (handle_to_netdev_ipv4/ipv6), the extended
error they may set, and the remainder of the egress pipeline (egress gateway,
bandwidth manager, IPsec/WireGuard, health check, NAT forward) abstracted as
one verdict. -/
structure ToNetdevEnv where
  l7lbTailRet : Int
  toNetdevIpv6 : Int
  toNetdevIpv4 : Int
  toNetdevExtErr : Int
  restVerdict : Int
deriving Repr, DecidableEq, Inhabited

/-- Modelled from the spec: supported ethertypes at the L2 dispatcher
(lib/eth.h is not in src/): IPv4, IPv6 and ARP frames. -/
def eth_is_supported_ethertype (proto : Nat) : Bool :=
  proto = ETH_P_IP || proto = ETH_P_IPV6 || proto = ETH_P_ARP

/-- Shallow embedding of cil_to_netdev (src/bpf/bpf_host.c lines 1384-1704)
for the build verified here (identity marks enabled by node_config.h, ARP
responder enabled).  The packet-content effects of the abstracted stages are
not modelled; the embedding tracks the verdict, the drop notification and the
context mutations the entry point itself performs. -/
def cil_to_netdev (cfg : Config) (env : ToNetdevEnv) (ctx0 : Ctx) :
    Int × Option DropNotif × Ctx :=
  let ctx := clearMeta ctx0
  let magic := ctx.mark &&& MARK_MAGIC_HOST_MASK
  let src_sec_identity :=
    if magic = MARK_MAGIC_HOST || magic = MARK_MAGIC_OVERLAY ||
       ctx.mark_is_wireguard then HOST_ID
    else if magic = MARK_MAGIC_IDENTITY then ctx.mark_identity
    else if cfg.enableEgressGw && magic = MARK_MAGIC_EGW_DONE then
      ctx.mark_identity
    else UNKNOWN_ID
  if ctx.vlan_present && ctx.vlan_tci &&& 0xfff ≠ 0 then
    if allow_vlan ctx.ifindex (ctx.vlan_tci &&& 0xfff) then
      (CTX_ACT_OK, none, ctx)
    else
      (CTX_ACT_DROP, some { src_id := src_sec_identity,
                            reason := DROP_VLAN_FILTERED, ext_err := 0 }, ctx)
  else if cfg.enableL7LB && magic = MARK_MAGIC_PROXY_EGRESS_EPID then
    (CTX_ACT_DROP, some { src_id := src_sec_identity, reason := env.l7lbTailRet,
                          ext_err := 0 }, { ctx with mark := 0 })
  else
    let hostfwEarly : Option Int :=
      if cfg.enableHostFirewall && !ctx.snat_done then
        if !eth_is_supported_ethertype ctx.proto then some DROP_UNSUPPORTED_L2
        else
          let r :=
            if ctx.proto = ETH_P_ARP then CTX_ACT_OK
            else if ctx.proto = ETH_P_IPV6 then env.toNetdevIpv6
            else if ctx.proto = ETH_P_IP then env.toNetdevIpv4
            else DROP_UNKNOWN_L3
          if r = CTX_ACT_REDIRECT then some r
          else if r < 0 then some r
          else none
      else none
    match hostfwEarly with
    | some r =>
      if r = CTX_ACT_REDIRECT then (CTX_ACT_REDIRECT, none, ctx)
      else
        (CTX_ACT_DROP, some { src_id := src_sec_identity, reason := r,
                              ext_err := env.toNetdevExtErr }, ctx)
    | none =>
      (env.restVerdict, none, ctx)

/-! ## Claim C1 -/

/-- C1 (amended): for every packet whose in-band identity is a reserved
placeholder value ("not yet resolved") and whose source address is present in
the remote-endpoint table with a non-host, non-reserved identity,
resolve_srcid_ipv4 / resolve_srcid_ipv6 return that table identity when the
direction is from-host or the secctx_from_ipcache flag is set, and otherwise
return the per-address-family world identity fallback. -/
theorem C1_resolve_srcid_ipcache_identity
    (cfg : Config) (t4 : Nat → Option RemoteEndpointInfo)
    (t6 : V6Addr → Option RemoteEndpointInfo) (ctx : Ctx)
    (inband sec0 : Nat) (from_host : Bool) (i4 i6 : RemoteEndpointInfo)
    (hres : identity_is_reserved inband = true)
    (h4 : t4 ctx.saddr4 = some i4)
    (h4host : i4.sec_identity ≠ HOST_ID)
    (h4res : identity_is_reserved i4.sec_identity = false)
    (h6 : t6 ctx.saddr6 = some i6)
    (h6host : i6.sec_identity ≠ HOST_ID)
    (h6res : identity_is_reserved i6.sec_identity = false) :
    (resolve_srcid_ipv4 cfg t4 ctx inband sec0 from_host).1 =
      (if from_host || cfg.secctx_from_ipcache then i4.sec_identity
       else WORLD_IPV4_ID) ∧
    (resolve_srcid_ipv6 cfg t6 ctx inband sec0 from_host).1 =
      (if from_host || cfg.secctx_from_ipcache then i6.sec_identity
       else WORLD_IPV6_ID) := by
  have _ := h4res
  have _ := h6res
  constructor
  · simp only [resolve_srcid_ipv4, hres, if_true, h4]
    rw [if_pos h4host]
    cases from_host <;> cases hc : cfg.secctx_from_ipcache <;> simp [hc]
  · simp only [resolve_srcid_ipv6, hres, if_true, h6]
    rw [if_pos h6host]
    cases from_host <;> cases hc : cfg.secctx_from_ipcache <;> simp [hc]

/-- C1 witness: a concrete instantiation of the amended claim with table
identities 50 (IPv4) and 60 (IPv6) and an unresolved (0) in-band identity. -/
theorem C1_resolve_srcid_ipcache_identity_witness :
    (resolve_srcid_ipv4 default
        (fun a => if a = 5 then
          some { sec_identity := 50, flag_skip_tunnel := false,
                 flag_has_tunnel_ep := false } else none)
        { (default : Ctx) with saddr4 := 5, saddr6 := { d1 := 7, d2 := 8 } }
        0 0 true).1 =
      (if (true : Bool) || (default : Config).secctx_from_ipcache then 50
       else WORLD_IPV4_ID) ∧
    (resolve_srcid_ipv6 default
        (fun a => if a = { d1 := 7, d2 := 8 } then
          some { sec_identity := 60, flag_skip_tunnel := false,
                 flag_has_tunnel_ep := false } else none)
        { (default : Ctx) with saddr4 := 5, saddr6 := { d1 := 7, d2 := 8 } }
        0 0 true).1 =
      (if (true : Bool) || (default : Config).secctx_from_ipcache then 60
       else WORLD_IPV6_ID) :=
  C1_resolve_srcid_ipcache_identity default _ _ _ 0 0 true
    { sec_identity := 50, flag_skip_tunnel := false, flag_has_tunnel_ep := false }
    { sec_identity := 60, flag_skip_tunnel := false, flag_has_tunnel_ep := false }
    (by decide) (by decide) (by decide) (by decide)
    (by decide) (by decide) (by decide)

/-- C1 counterexample: the claim as stated fails when the in-band identity is
not a reserved placeholder.  With in-band identity 12345 (a real, non-reserved
identity), source address 5 present in the table with non-host non-reserved
identity 50, and direction from-host, resolve_srcid_ipv4 returns the in-band
value 12345, not the table identity 50: the remote-endpoint lookup is only
performed when the in-band identity is reserved. -/
theorem C1_resolve_srcid_counterexample :
    identity_is_reserved 12345 = false ∧
    (fun a => if a = 5 then
        some ({ sec_identity := 50, flag_skip_tunnel := false,
                flag_has_tunnel_ep := false } : RemoteEndpointInfo)
      else none) 5 =
      some { sec_identity := 50, flag_skip_tunnel := false,
             flag_has_tunnel_ep := false } ∧
    (50 : Nat) ≠ HOST_ID ∧ identity_is_reserved 50 = false ∧
    (resolve_srcid_ipv4 default
        (fun a => if a = 5 then
          some { sec_identity := 50, flag_skip_tunnel := false,
                 flag_has_tunnel_ep := false } else none)
        { (default : Ctx) with saddr4 := 5 } 12345 0 true).1 = 12345 ∧
    (12345 : Nat) ≠ 50 := by
  decide

/-! ## Claim C9 -/

/-- C9: resolve_srcid_ipv4 and resolve_srcid_ipv6 never mutate the packet
context and are deterministic and idempotent: the context comes back
unchanged, and re-running the resolver on the context produced by a first run,
with the same table, in-band identity and direction, yields the identical
result. -/
theorem C9_resolve_srcid_pure_idempotent
    (cfg : Config) (t4 : Nat → Option RemoteEndpointInfo)
    (t6 : V6Addr → Option RemoteEndpointInfo) (ctx : Ctx)
    (inband sec0 : Nat) (from_host : Bool) :
    (resolve_srcid_ipv4 cfg t4 ctx inband sec0 from_host).2.2 = ctx ∧
    resolve_srcid_ipv4 cfg t4
        (resolve_srcid_ipv4 cfg t4 ctx inband sec0 from_host).2.2
        inband sec0 from_host =
      resolve_srcid_ipv4 cfg t4 ctx inband sec0 from_host ∧
    (resolve_srcid_ipv6 cfg t6 ctx inband sec0 from_host).2.2 = ctx ∧
    resolve_srcid_ipv6 cfg t6
        (resolve_srcid_ipv6 cfg t6 ctx inband sec0 from_host).2.2
        inband sec0 from_host =
      resolve_srcid_ipv6 cfg t6 ctx inband sec0 from_host :=
  ⟨rfl, rfl, rfl, rfl⟩

/-! ## Claim C2 -/

/-- C2: with the host firewall enabled, the firewall path fails closed on the
connection-tracking transfer buffer.  If the pre-check phase determined that
enforcement is needed (the CT lookup hit, with a non-error result) and the
store into the per-CPU transfer buffer fails, handle_ipv4/handle_ipv6 return
DROP_INVALID_TC_BUFFER (shown for the from-host egress and the
from-network ingress lookups of both families); and if the apply phase finds
the buffer absent, or zeroed (source address all-zero),
handle_ipv4_cont/handle_ipv6_cont return DROP_INVALID_TC_BUFFER instead of
skipping enforcement. -/
theorem C2_transfer_buffer_fail_closed :
    (∀ (cfg : Config) (env : Env4) (secctx ipc : Nat) (st : HostState)
       (cb : CtBuffer4),
      cfg.enableHostFirewall = true → env.revalidateOk = true →
      (cfg.enableIPv4Fragments = true ∨ env.fragIsFragment = false) →
      env.egressLookup = some cb → ¬cb.ret < 0 → env.mapUpdateFails = true →
      (handle_ipv4 cfg env secctx ipc true st).1 = DROP_INVALID_TC_BUFFER) ∧
    (∀ (cfg : Config) (env : Env4) (secctx ipc : Nat) (st : HostState)
       (cb : CtBuffer4),
      cfg.enableHostFirewall = true → env.revalidateOk = true →
      (cfg.enableIPv4Fragments = true ∨ env.fragIsFragment = false) →
      (cfg.enableNodeport = false ∨ env.skipNodeport = true) →
      env.skipHostFw = false →
      env.ingressLookup = some cb → ¬cb.ret < 0 → env.mapUpdateFails = true →
      (handle_ipv4 cfg env secctx ipc false st).1 = DROP_INVALID_TC_BUFFER) ∧
    (∀ (cfg : Config) (cenv : ContEnv4)
       (t4 : Nat → Option RemoteEndpointInfo) (secctx : Nat)
       (from_host : Bool) (st : HostState),
      cfg.enableHostFirewall = true → cenv.revalidateOk = true →
      st.ctx.cb_from_host &&& FROM_HOST_FLAG_NEED_HOSTFW ≠ 0 →
      st.buf4 = none →
      (handle_ipv4_cont cfg cenv t4 secctx from_host st).1 =
        DROP_INVALID_TC_BUFFER) ∧
    (∀ (cfg : Config) (cenv : ContEnv4)
       (t4 : Nat → Option RemoteEndpointInfo) (secctx : Nat)
       (from_host : Bool) (st : HostState) (cb : CtBuffer4),
      cfg.enableHostFirewall = true → cenv.revalidateOk = true →
      st.ctx.cb_from_host &&& FROM_HOST_FLAG_NEED_HOSTFW ≠ 0 →
      st.buf4 = some cb → cb.tuple_saddr = 0 →
      (handle_ipv4_cont cfg cenv t4 secctx from_host st).1 =
        DROP_INVALID_TC_BUFFER) ∧
    (∀ (cfg : Config) (env : Env6) (secctx ipc : Nat) (st : HostState)
       (cb : CtBuffer6),
      cfg.enableHostFirewall = true → env.revalidateOk = true →
      (cfg.enableIPv6Fragments = true ∨
        (env.fraginfoErr = none ∧ env.fragIsFragment = false)) →
      env.hdrlenErr = none → env.isIcmp6 = false →
      env.egressLookup = some cb → ¬cb.ret < 0 → env.mapUpdateFails = true →
      (handle_ipv6 cfg env secctx ipc true st).1 = DROP_INVALID_TC_BUFFER) ∧
    (∀ (cfg : Config) (env : Env6) (secctx ipc : Nat) (st : HostState)
       (cb : CtBuffer6),
      cfg.enableHostFirewall = true → env.revalidateOk = true →
      (cfg.enableIPv6Fragments = true ∨
        (env.fraginfoErr = none ∧ env.fragIsFragment = false)) →
      env.hdrlenErr = none → env.isIcmp6 = false →
      (cfg.enableNodeport = false ∨ env.skipNodeport = true) →
      env.skipHostFw = false →
      env.ingressLookup = some cb → ¬cb.ret < 0 → env.mapUpdateFails = true →
      (handle_ipv6 cfg env secctx ipc false st).1 = DROP_INVALID_TC_BUFFER) ∧
    (∀ (cfg : Config) (cenv : ContEnv6)
       (t6 : V6Addr → Option RemoteEndpointInfo) (secctx : Nat)
       (from_host : Bool) (st : HostState),
      cfg.enableHostFirewall = true → cenv.revalidateOk = true →
      st.ctx.cb_from_host &&& FROM_HOST_FLAG_NEED_HOSTFW ≠ 0 →
      st.buf6 = none →
      (handle_ipv6_cont cfg cenv t6 secctx from_host st).1 =
        DROP_INVALID_TC_BUFFER) ∧
    (∀ (cfg : Config) (cenv : ContEnv6)
       (t6 : V6Addr → Option RemoteEndpointInfo) (secctx : Nat)
       (from_host : Bool) (st : HostState) (cb : CtBuffer6),
      cfg.enableHostFirewall = true → cenv.revalidateOk = true →
      st.ctx.cb_from_host &&& FROM_HOST_FLAG_NEED_HOSTFW ≠ 0 →
      st.buf6 = some cb → cb.tuple_saddr.d1 = 0 → cb.tuple_saddr.d2 = 0 →
      (handle_ipv6_cont cfg cenv t6 secctx from_host st).1 =
        DROP_INVALID_TC_BUFFER) := by
  refine ⟨?_, ?_, ?_, ?_, ?_, ?_, ?_, ?_⟩
  · intro cfg env secctx ipc st cb h1 h2 h3 h4 h5 h6
    rcases h3 with h3 | h3 <;> simp [handle_ipv4, h1, h2, h3, h4, h5, h6]
  · intro cfg env secctx ipc st cb h1 h2 h3 hnp hskip h4 h5 h6
    rcases h3 with h3 | h3 <;> rcases hnp with hnp | hnp <;>
      simp [handle_ipv4, h1, h2, h3, hnp, hskip, h4, h5, h6]
  · intro cfg cenv t4 secctx from_host st h1 h2 h3 h4
    simp [handle_ipv4_cont, h1, h2, h3, h4]
  · intro cfg cenv t4 secctx from_host st cb h1 h2 h3 h4 h5
    simp [handle_ipv4_cont, h1, h2, h3, h4, h5]
  · intro cfg env secctx ipc st cb h1 h2 h3 hh hi h4 h5 h6
    rcases h3 with h3 | ⟨h3a, h3b⟩ <;> simp [handle_ipv6, *]
  · intro cfg env secctx ipc st cb h1 h2 h3 hh hi hnp hskip h4 h5 h6
    rcases h3 with h3 | ⟨h3a, h3b⟩ <;> rcases hnp with hnp | hnp <;>
      simp [handle_ipv6, *]
  · intro cfg cenv t6 secctx from_host st h1 h2 h3 h4
    simp [handle_ipv6_cont, h1, h2, h3, h4]
  · intro cfg cenv t6 secctx from_host st cb h1 h2 h3 h4 h5 h6
    simp [handle_ipv6_cont, h1, h2, h3, h4, h5, h6]

/-- C2 witness: concrete packets exercising all eight fail-closed paths
(store failure on the IPv4/IPv6 egress and ingress lookups; absent and zeroed
buffer in the IPv4/IPv6 apply phase). -/
theorem C2_transfer_buffer_fail_closed_witness :
    (handle_ipv4 { (default : Config) with enableHostFirewall := true }
      { (default : Env4) with
        revalidateOk := true,
        egressLookup := some { tuple_saddr := 9, ret := 0, rest := 0 },
        mapUpdateFails := true }
      0 0 true default).1 = DROP_INVALID_TC_BUFFER ∧
    (handle_ipv4 { (default : Config) with enableHostFirewall := true }
      { (default : Env4) with
        revalidateOk := true,
        ingressLookup := some { tuple_saddr := 9, ret := 0, rest := 0 },
        mapUpdateFails := true }
      0 0 false default).1 = DROP_INVALID_TC_BUFFER ∧
    (handle_ipv4_cont { (default : Config) with enableHostFirewall := true }
      { (default : ContEnv4) with revalidateOk := true }
      (fun _ => none) 0 true
      { (default : HostState) with
        ctx := { (default : Ctx) with cb_from_host := 2 } }).1 =
      DROP_INVALID_TC_BUFFER ∧
    (handle_ipv4_cont { (default : Config) with enableHostFirewall := true }
      { (default : ContEnv4) with revalidateOk := true }
      (fun _ => none) 0 true
      { (default : HostState) with
        ctx := { (default : Ctx) with cb_from_host := 2 },
        buf4 := some { tuple_saddr := 0, ret := 0, rest := 0 } }).1 =
      DROP_INVALID_TC_BUFFER ∧
    (handle_ipv6 { (default : Config) with enableHostFirewall := true }
      { (default : Env6) with
        revalidateOk := true,
        egressLookup := some { tuple_saddr := { d1 := 9, d2 := 9 }, ret := 0,
                               rest := 0 },
        mapUpdateFails := true }
      0 0 true default).1 = DROP_INVALID_TC_BUFFER ∧
    (handle_ipv6 { (default : Config) with enableHostFirewall := true }
      { (default : Env6) with
        revalidateOk := true,
        ingressLookup := some { tuple_saddr := { d1 := 9, d2 := 9 }, ret := 0,
                                rest := 0 },
        mapUpdateFails := true }
      0 0 false default).1 = DROP_INVALID_TC_BUFFER ∧
    (handle_ipv6_cont { (default : Config) with enableHostFirewall := true }
      { (default : ContEnv6) with revalidateOk := true }
      (fun _ => none) 0 true
      { (default : HostState) with
        ctx := { (default : Ctx) with cb_from_host := 2 } }).1 =
      DROP_INVALID_TC_BUFFER ∧
    (handle_ipv6_cont { (default : Config) with enableHostFirewall := true }
      { (default : ContEnv6) with revalidateOk := true }
      (fun _ => none) 0 true
      { (default : HostState) with
        ctx := { (default : Ctx) with cb_from_host := 2 },
        buf6 := some { tuple_saddr := { d1 := 0, d2 := 0 }, ret := 0,
                       rest := 0 } }).1 = DROP_INVALID_TC_BUFFER :=
  ⟨C2_transfer_buffer_fail_closed.1 _ _ 0 0 default
      { tuple_saddr := 9, ret := 0, rest := 0 }
      rfl rfl (Or.inr rfl) rfl (by decide) rfl,
   C2_transfer_buffer_fail_closed.2.1 _ _ 0 0 default
      { tuple_saddr := 9, ret := 0, rest := 0 }
      rfl rfl (Or.inr rfl) (Or.inl rfl) rfl rfl (by decide) rfl,
   C2_transfer_buffer_fail_closed.2.2.1 _ _ (fun _ => none) 0 true _
      rfl rfl (by decide) rfl,
   C2_transfer_buffer_fail_closed.2.2.2.1 _ _ (fun _ => none) 0 true _
      { tuple_saddr := 0, ret := 0, rest := 0 }
      rfl rfl (by decide) rfl rfl,
   C2_transfer_buffer_fail_closed.2.2.2.2.1 _ _ 0 0 default
      { tuple_saddr := { d1 := 9, d2 := 9 }, ret := 0, rest := 0 }
      rfl rfl (Or.inr ⟨rfl, rfl⟩) rfl rfl rfl (by decide) rfl,
   C2_transfer_buffer_fail_closed.2.2.2.2.2.1 _ _ 0 0 default
      { tuple_saddr := { d1 := 9, d2 := 9 }, ret := 0, rest := 0 }
      rfl rfl (Or.inr ⟨rfl, rfl⟩) rfl rfl (Or.inl rfl) rfl rfl (by decide) rfl,
   C2_transfer_buffer_fail_closed.2.2.2.2.2.2.1 _ _ (fun _ => none) 0 true _
      rfl rfl (by decide) rfl,
   C2_transfer_buffer_fail_closed.2.2.2.2.2.2.2 _ _ (fun _ => none) 0 true _
      { tuple_saddr := { d1 := 0, d2 := 0 }, ret := 0, rest := 0 }
      rfl rfl (by decide) rfl rfl rfl⟩

/-! ## Claim C3 -/

/-- C3: for every packet for which the host-firewall pre-check signals
need_hostfw with a successful store, the apply phase decides from exactly the
CT-lookup result the pre-check computed and stored.  Formally, for each
family and direction: the pre-check returns CTX_ACT_OK leaving the transfer
buffer holding exactly the computed ct_buffer x, and the continuation's
result depends on the policy-apply collaborator only through its value at x —
any two apply functions agreeing at x yield identical continuation outcomes
(apply(store(x)) == decide_from(x)). -/
theorem C3_transfer_buffer_round_trip :
    (∀ (cfg : Config) (env : Env4) (cenv : ContEnv4)
       (t4 : Nat → Option RemoteEndpointInfo) (secctx ipc : Nat)
       (st : HostState) (cb : CtBuffer4) (f g : CtBuffer4 → Bool → Int),
      cfg.enableHostFirewall = true → env.revalidateOk = true →
      (cfg.enableIPv4Fragments = true ∨ env.fragIsFragment = false) →
      env.egressLookup = some cb → ¬cb.ret < 0 → env.mapUpdateFails = false →
      cb.tuple_saddr ≠ 0 →
      (∀ hid, f cb hid = g cb hid) →
      (handle_ipv4 cfg env secctx ipc true st).1 = CTX_ACT_OK ∧
      (handle_ipv4 cfg env secctx ipc true st).2.buf4 = some cb ∧
      handle_ipv4_cont cfg { cenv with egressApply := f } t4 secctx true
          (handle_ipv4 cfg env secctx ipc true st).2 =
        handle_ipv4_cont cfg { cenv with egressApply := g } t4 secctx true
          (handle_ipv4 cfg env secctx ipc true st).2) ∧
    (∀ (cfg : Config) (env : Env4) (cenv : ContEnv4)
       (t4 : Nat → Option RemoteEndpointInfo) (secctx ipc : Nat)
       (st : HostState) (cb : CtBuffer4) (f g : CtBuffer4 → Int),
      cfg.enableHostFirewall = true → env.revalidateOk = true →
      (cfg.enableIPv4Fragments = true ∨ env.fragIsFragment = false) →
      (cfg.enableNodeport = false ∨ env.skipNodeport = true) →
      env.skipHostFw = false →
      env.ingressLookup = some cb → ¬cb.ret < 0 → env.mapUpdateFails = false →
      cb.tuple_saddr ≠ 0 →
      f cb = g cb →
      (handle_ipv4 cfg env secctx ipc false st).1 = CTX_ACT_OK ∧
      (handle_ipv4 cfg env secctx ipc false st).2.buf4 = some cb ∧
      handle_ipv4_cont cfg { cenv with ingressApply := f } t4 secctx false
          (handle_ipv4 cfg env secctx ipc false st).2 =
        handle_ipv4_cont cfg { cenv with ingressApply := g } t4 secctx false
          (handle_ipv4 cfg env secctx ipc false st).2) ∧
    (∀ (cfg : Config) (env : Env6) (cenv : ContEnv6)
       (t6 : V6Addr → Option RemoteEndpointInfo) (secctx ipc : Nat)
       (st : HostState) (cb : CtBuffer6) (f g : CtBuffer6 → Bool → Int),
      cfg.enableHostFirewall = true → env.revalidateOk = true →
      (cfg.enableIPv6Fragments = true ∨
        (env.fraginfoErr = none ∧ env.fragIsFragment = false)) →
      env.hdrlenErr = none → env.isIcmp6 = false →
      env.egressLookup = some cb → ¬cb.ret < 0 → env.mapUpdateFails = false →
      ¬(cb.tuple_saddr.d1 = 0 ∧ cb.tuple_saddr.d2 = 0) →
      (∀ hid, f cb hid = g cb hid) →
      (handle_ipv6 cfg env secctx ipc true st).1 = CTX_ACT_OK ∧
      (handle_ipv6 cfg env secctx ipc true st).2.buf6 = some cb ∧
      handle_ipv6_cont cfg { cenv with egressApply := f } t6 secctx true
          (handle_ipv6 cfg env secctx ipc true st).2 =
        handle_ipv6_cont cfg { cenv with egressApply := g } t6 secctx true
          (handle_ipv6 cfg env secctx ipc true st).2) ∧
    (∀ (cfg : Config) (env : Env6) (cenv : ContEnv6)
       (t6 : V6Addr → Option RemoteEndpointInfo) (secctx ipc : Nat)
       (st : HostState) (cb : CtBuffer6) (f g : CtBuffer6 → Int),
      cfg.enableHostFirewall = true → env.revalidateOk = true →
      (cfg.enableIPv6Fragments = true ∨
        (env.fraginfoErr = none ∧ env.fragIsFragment = false)) →
      env.hdrlenErr = none → env.isIcmp6 = false →
      (cfg.enableNodeport = false ∨ env.skipNodeport = true) →
      env.skipHostFw = false →
      env.ingressLookup = some cb → ¬cb.ret < 0 → env.mapUpdateFails = false →
      ¬(cb.tuple_saddr.d1 = 0 ∧ cb.tuple_saddr.d2 = 0) →
      f cb = g cb →
      (handle_ipv6 cfg env secctx ipc false st).1 = CTX_ACT_OK ∧
      (handle_ipv6 cfg env secctx ipc false st).2.buf6 = some cb ∧
      handle_ipv6_cont cfg { cenv with ingressApply := f } t6 secctx false
          (handle_ipv6 cfg env secctx ipc false st).2 =
        handle_ipv6_cont cfg { cenv with ingressApply := g } t6 secctx false
          (handle_ipv6 cfg env secctx ipc false st).2) := by
  have e22 : ((2 : Nat) &&& 2 ≠ 0) := by decide
  have e62 : ((6 : Nat) &&& 2 ≠ 0) := by decide
  have e24 : ¬((2 : Nat) &&& 4 ≠ 0) := by decide
  have e64 : ((6 : Nat) &&& 4 ≠ 0) := by decide
  have ef1 : FROM_HOST_FLAG_NEED_HOSTFW = 2 := by decide
  have ef2 : FROM_HOST_FLAG_HOST_ID = 4 := by decide
  refine ⟨?_, ?_, ?_, ?_⟩
  · intro cfg env cenv t4 secctx ipc st cb f g h1 h2 h3 h4 h5 h6 h7 hfg
    by_cases hsec : secctx = HOST_ID <;> rcases h3 with h3 | h3 <;>
      simp [handle_ipv4, handle_ipv4_cont, h1, h2, h3, h4, h5, h6, h7, hsec,
            hfg, e22, e62, e24, e64, ef1, ef2]
  · intro cfg env cenv t4 secctx ipc st cb f g h1 h2 h3 hnp hsk h4 h5 h6 h7 hfg
    rcases h3 with h3 | h3 <;> rcases hnp with hnp | hnp <;>
      simp [handle_ipv4, handle_ipv4_cont, h1, h2, h3, hnp, hsk, h4, h5, h6,
            h7, hfg, e22, e62, e24, e64, ef1, ef2]
  · intro cfg env cenv t6 secctx ipc st cb f g h1 h2 h3 hh hi h4 h5 h6 h7 hfg
    by_cases hsec : secctx = HOST_ID <;> rcases h3 with h3 | ⟨h3a, h3b⟩ <;>
      simp [handle_ipv6, handle_ipv6_cont, *, e22, e62, e24, e64, ef1, ef2]
  · intro cfg env cenv t6 secctx ipc st cb f g h1 h2 h3 hh hi hnp hsk h4 h5 h6
      h7 hfg
    rcases h3 with h3 | ⟨h3a, h3b⟩ <;> rcases hnp with hnp | hnp <;>
      simp [handle_ipv6, handle_ipv6_cont, *, e22, e62, e24, e64, ef1, ef2]

/-- C3 witness: concrete round trips for all four direction/family pairs.
The two apply oracles of each pair agree at the stored buffer (source address
9) and differ elsewhere, yet the continuation outcomes coincide. -/
theorem C3_transfer_buffer_round_trip_witness :
    ((handle_ipv4 { (default : Config) with enableHostFirewall := true }
        { (default : Env4) with
          revalidateOk := true,
          egressLookup := some { tuple_saddr := 9, ret := 0, rest := 0 } }
        0 0 true default).1 = CTX_ACT_OK ∧
     (handle_ipv4 { (default : Config) with enableHostFirewall := true }
        { (default : Env4) with
          revalidateOk := true,
          egressLookup := some { tuple_saddr := 9, ret := 0, rest := 0 } }
        0 0 true default).2.buf4 =
       some { tuple_saddr := 9, ret := 0, rest := 0 } ∧
     handle_ipv4_cont { (default : Config) with enableHostFirewall := true }
        { (default : ContEnv4) with egressApply := fun _ _ => 0 }
        (fun _ => none) 0 true
        (handle_ipv4 { (default : Config) with enableHostFirewall := true }
          { (default : Env4) with
            revalidateOk := true,
            egressLookup := some { tuple_saddr := 9, ret := 0, rest := 0 } }
          0 0 true default).2 =
       handle_ipv4_cont { (default : Config) with enableHostFirewall := true }
        { (default : ContEnv4) with
          egressApply := fun c _ => if c.tuple_saddr = 9 then 0 else 5 }
        (fun _ => none) 0 true
        (handle_ipv4 { (default : Config) with enableHostFirewall := true }
          { (default : Env4) with
            revalidateOk := true,
            egressLookup := some { tuple_saddr := 9, ret := 0, rest := 0 } }
          0 0 true default).2) ∧
    ((handle_ipv4 { (default : Config) with enableHostFirewall := true }
        { (default : Env4) with
          revalidateOk := true,
          ingressLookup := some { tuple_saddr := 9, ret := 0, rest := 0 } }
        0 0 false default).1 = CTX_ACT_OK ∧
     (handle_ipv4 { (default : Config) with enableHostFirewall := true }
        { (default : Env4) with
          revalidateOk := true,
          ingressLookup := some { tuple_saddr := 9, ret := 0, rest := 0 } }
        0 0 false default).2.buf4 =
       some { tuple_saddr := 9, ret := 0, rest := 0 } ∧
     handle_ipv4_cont { (default : Config) with enableHostFirewall := true }
        { (default : ContEnv4) with ingressApply := fun _ => 0 }
        (fun _ => none) 0 false
        (handle_ipv4 { (default : Config) with enableHostFirewall := true }
          { (default : Env4) with
            revalidateOk := true,
            ingressLookup := some { tuple_saddr := 9, ret := 0, rest := 0 } }
          0 0 false default).2 =
       handle_ipv4_cont { (default : Config) with enableHostFirewall := true }
        { (default : ContEnv4) with
          ingressApply := fun c => if c.tuple_saddr = 9 then 0 else 5 }
        (fun _ => none) 0 false
        (handle_ipv4 { (default : Config) with enableHostFirewall := true }
          { (default : Env4) with
            revalidateOk := true,
            ingressLookup := some { tuple_saddr := 9, ret := 0, rest := 0 } }
          0 0 false default).2) ∧
    ((handle_ipv6 { (default : Config) with enableHostFirewall := true }
        { (default : Env6) with
          revalidateOk := true,
          egressLookup := some { tuple_saddr := { d1 := 9, d2 := 9 },
                                 ret := 0, rest := 0 } }
        0 0 true default).1 = CTX_ACT_OK ∧
     (handle_ipv6 { (default : Config) with enableHostFirewall := true }
        { (default : Env6) with
          revalidateOk := true,
          egressLookup := some { tuple_saddr := { d1 := 9, d2 := 9 },
                                 ret := 0, rest := 0 } }
        0 0 true default).2.buf6 =
       some { tuple_saddr := { d1 := 9, d2 := 9 }, ret := 0, rest := 0 } ∧
     handle_ipv6_cont { (default : Config) with enableHostFirewall := true }
        { (default : ContEnv6) with egressApply := fun _ _ => 0 }
        (fun _ => none) 0 true
        (handle_ipv6 { (default : Config) with enableHostFirewall := true }
          { (default : Env6) with
            revalidateOk := true,
            egressLookup := some { tuple_saddr := { d1 := 9, d2 := 9 },
                                   ret := 0, rest := 0 } }
          0 0 true default).2 =
       handle_ipv6_cont { (default : Config) with enableHostFirewall := true }
        { (default : ContEnv6) with
          egressApply := fun c _ => if c.tuple_saddr.d1 = 9 then 0 else 5 }
        (fun _ => none) 0 true
        (handle_ipv6 { (default : Config) with enableHostFirewall := true }
          { (default : Env6) with
            revalidateOk := true,
            egressLookup := some { tuple_saddr := { d1 := 9, d2 := 9 },
                                   ret := 0, rest := 0 } }
          0 0 true default).2) ∧
    ((handle_ipv6 { (default : Config) with enableHostFirewall := true }
        { (default : Env6) with
          revalidateOk := true,
          ingressLookup := some { tuple_saddr := { d1 := 9, d2 := 9 },
                                  ret := 0, rest := 0 } }
        0 0 false default).1 = CTX_ACT_OK ∧
     (handle_ipv6 { (default : Config) with enableHostFirewall := true }
        { (default : Env6) with
          revalidateOk := true,
          ingressLookup := some { tuple_saddr := { d1 := 9, d2 := 9 },
                                  ret := 0, rest := 0 } }
        0 0 false default).2.buf6 =
       some { tuple_saddr := { d1 := 9, d2 := 9 }, ret := 0, rest := 0 } ∧
     handle_ipv6_cont { (default : Config) with enableHostFirewall := true }
        { (default : ContEnv6) with ingressApply := fun _ => 0 }
        (fun _ => none) 0 false
        (handle_ipv6 { (default : Config) with enableHostFirewall := true }
          { (default : Env6) with
            revalidateOk := true,
            ingressLookup := some { tuple_saddr := { d1 := 9, d2 := 9 },
                                    ret := 0, rest := 0 } }
          0 0 false default).2 =
       handle_ipv6_cont { (default : Config) with enableHostFirewall := true }
        { (default : ContEnv6) with
          ingressApply := fun c => if c.tuple_saddr.d1 = 9 then 0 else 5 }
        (fun _ => none) 0 false
        (handle_ipv6 { (default : Config) with enableHostFirewall := true }
          { (default : Env6) with
            revalidateOk := true,
            ingressLookup := some { tuple_saddr := { d1 := 9, d2 := 9 },
                                    ret := 0, rest := 0 } }
          0 0 false default).2) :=
  ⟨C3_transfer_buffer_round_trip.1 _ _ _ (fun _ => none) 0 0 default
      { tuple_saddr := 9, ret := 0, rest := 0 }
      (fun _ _ => 0) (fun c _ => if c.tuple_saddr = 9 then 0 else 5)
      rfl rfl (Or.inr rfl) rfl (by decide) rfl (by decide) (by decide),
   C3_transfer_buffer_round_trip.2.1 _ _ _ (fun _ => none) 0 0 default
      { tuple_saddr := 9, ret := 0, rest := 0 }
      (fun _ => 0) (fun c => if c.tuple_saddr = 9 then 0 else 5)
      rfl rfl (Or.inr rfl) (Or.inl rfl) rfl rfl (by decide) rfl (by decide)
      (by decide),
   C3_transfer_buffer_round_trip.2.2.1 _ _ _ (fun _ => none) 0 0 default
      { tuple_saddr := { d1 := 9, d2 := 9 }, ret := 0, rest := 0 }
      (fun _ _ => 0) (fun c _ => if c.tuple_saddr.d1 = 9 then 0 else 5)
      rfl rfl (Or.inr ⟨rfl, rfl⟩) rfl rfl rfl (by decide) rfl (by decide)
      (by decide),
   C3_transfer_buffer_round_trip.2.2.2 _ _ _ (fun _ => none) 0 0 default
      { tuple_saddr := { d1 := 9, d2 := 9 }, ret := 0, rest := 0 }
      (fun _ => 0) (fun c => if c.tuple_saddr.d1 = 9 then 0 else 5)
      rfl rfl (Or.inr ⟨rfl, rfl⟩) rfl rfl (Or.inl rfl) rfl rfl (by decide) rfl
      (by decide) (by decide)⟩

/-! ## Claim C4 -/

/-- C4 (amended): for every from-host packet that reaches the remote/tunnel
decision — its destination is not a known local endpoint, the host-firewall
apply stage (if engaged) lets the packet continue, and no VTEP or
tunnel-encapsulation path takes effect — the continuation handler returns
DROP_UNROUTABLE when the destination has no remote-endpoint entry, and also
when the entry maps to the catch-all world identity while the packet did not
originate from a proxy; proxy-originated packets toward the world identity
are not dropped by this rule (both families). -/
theorem C4_unroutable_destinations_dropped :
    (∀ (cfg : Config) (cenv : ContEnv4)
       (t4 : Nat → Option RemoteEndpointInfo) (secctx : Nat) (st : HostState),
      cenv.revalidateOk = true →
      (cfg.enableHostFirewall = false ∨
       st.ctx.cb_from_host &&& FROM_HOST_FLAG_NEED_HOSTFW = 0 ∨
       (∃ cb, st.buf4 = some cb ∧ cb.tuple_saddr ≠ 0 ∧
         (∀ hid, ¬cenv.egressApply cb hid < 0) ∧
         (∀ hid, cenv.egressApply cb hid ≠ CTX_ACT_REDIRECT) ∧
         cenv.revalidateOk2 = true)) →
      (cfg.enableVtep = false ∨ cenv.vtepLookup = none) →
      cenv.epLookup = none →
      t4 st.ctx.daddr4 = none →
      (handle_ipv4_cont cfg cenv t4 secctx true st).1 = DROP_UNROUTABLE) ∧
    (∀ (cfg : Config) (cenv : ContEnv4)
       (t4 : Nat → Option RemoteEndpointInfo) (secctx : Nat) (st : HostState)
       (i : RemoteEndpointInfo),
      cenv.revalidateOk = true →
      (cfg.enableHostFirewall = false ∨
       st.ctx.cb_from_host &&& FROM_HOST_FLAG_NEED_HOSTFW = 0 ∨
       (∃ cb, st.buf4 = some cb ∧ cb.tuple_saddr ≠ 0 ∧
         (∀ hid, ¬cenv.egressApply cb hid < 0) ∧
         (∀ hid, cenv.egressApply cb hid ≠ CTX_ACT_REDIRECT) ∧
         cenv.revalidateOk2 = true)) →
      (cfg.enableVtep = false ∨ cenv.vtepLookup = none) →
      cenv.epLookup = none →
      t4 st.ctx.daddr4 = some i →
      identity_is_world_ipv4 i.sec_identity = true →
      (cfg.tunnelMode = false ∨ i.flag_skip_tunnel = true ∨
       i.flag_has_tunnel_ep = false) →
      st.ctx.tc_index_ingress_proxy = false →
      st.ctx.tc_index_egress_proxy = false →
      (handle_ipv4_cont cfg cenv t4 secctx true st).1 = DROP_UNROUTABLE) ∧
    (∀ (cfg : Config) (cenv : ContEnv4)
       (t4 : Nat → Option RemoteEndpointInfo) (secctx : Nat) (st : HostState)
       (i : RemoteEndpointInfo),
      cenv.revalidateOk = true →
      (cfg.enableHostFirewall = false ∨
       st.ctx.cb_from_host &&& FROM_HOST_FLAG_NEED_HOSTFW = 0 ∨
       (∃ cb, st.buf4 = some cb ∧ cb.tuple_saddr ≠ 0 ∧
         (∀ hid, ¬cenv.egressApply cb hid < 0) ∧
         (∀ hid, cenv.egressApply cb hid ≠ CTX_ACT_REDIRECT) ∧
         cenv.revalidateOk2 = true)) →
      (cfg.enableVtep = false ∨ cenv.vtepLookup = none) →
      cenv.epLookup = none →
      t4 st.ctx.daddr4 = some i →
      identity_is_world_ipv4 i.sec_identity = true →
      (cfg.tunnelMode = false ∨ i.flag_skip_tunnel = true ∨
       i.flag_has_tunnel_ep = false) →
      st.ctx.tc_index_ingress_proxy = true →
      (handle_ipv4_cont cfg cenv t4 secctx true st).1 = CTX_ACT_OK) ∧
    (∀ (cfg : Config) (cenv : ContEnv6)
       (t6 : V6Addr → Option RemoteEndpointInfo) (secctx : Nat)
       (st : HostState),
      cenv.revalidateOk = true →
      (cfg.enableHostFirewall = false ∨
       st.ctx.cb_from_host &&& FROM_HOST_FLAG_NEED_HOSTFW = 0 ∨
       (∃ cb, st.buf6 = some cb ∧
         ¬(cb.tuple_saddr.d1 = 0 ∧ cb.tuple_saddr.d2 = 0) ∧
         (∀ hid, ¬cenv.egressApply cb hid < 0) ∧
         (∀ hid, cenv.egressApply cb hid ≠ CTX_ACT_REDIRECT) ∧
         cenv.revalidateOk2 = true)) →
      cenv.epLookup = none →
      t6 st.ctx.daddr6 = none →
      (handle_ipv6_cont cfg cenv t6 secctx true st).1 = DROP_UNROUTABLE) ∧
    (∀ (cfg : Config) (cenv : ContEnv6)
       (t6 : V6Addr → Option RemoteEndpointInfo) (secctx : Nat)
       (st : HostState) (i : RemoteEndpointInfo),
      cenv.revalidateOk = true →
      (cfg.enableHostFirewall = false ∨
       st.ctx.cb_from_host &&& FROM_HOST_FLAG_NEED_HOSTFW = 0 ∨
       (∃ cb, st.buf6 = some cb ∧
         ¬(cb.tuple_saddr.d1 = 0 ∧ cb.tuple_saddr.d2 = 0) ∧
         (∀ hid, ¬cenv.egressApply cb hid < 0) ∧
         (∀ hid, cenv.egressApply cb hid ≠ CTX_ACT_REDIRECT) ∧
         cenv.revalidateOk2 = true)) →
      cenv.epLookup = none →
      t6 st.ctx.daddr6 = some i →
      identity_is_world_ipv6 i.sec_identity = true →
      (cfg.tunnelMode = false ∨ i.flag_skip_tunnel = true ∨
       i.flag_has_tunnel_ep = false) →
      st.ctx.tc_index_ingress_proxy = false →
      st.ctx.tc_index_egress_proxy = false →
      (handle_ipv6_cont cfg cenv t6 secctx true st).1 = DROP_UNROUTABLE) ∧
    (∀ (cfg : Config) (cenv : ContEnv6)
       (t6 : V6Addr → Option RemoteEndpointInfo) (secctx : Nat)
       (st : HostState) (i : RemoteEndpointInfo),
      cenv.revalidateOk = true →
      (cfg.enableHostFirewall = false ∨
       st.ctx.cb_from_host &&& FROM_HOST_FLAG_NEED_HOSTFW = 0 ∨
       (∃ cb, st.buf6 = some cb ∧
         ¬(cb.tuple_saddr.d1 = 0 ∧ cb.tuple_saddr.d2 = 0) ∧
         (∀ hid, ¬cenv.egressApply cb hid < 0) ∧
         (∀ hid, cenv.egressApply cb hid ≠ CTX_ACT_REDIRECT) ∧
         cenv.revalidateOk2 = true)) →
      cenv.epLookup = none →
      t6 st.ctx.daddr6 = some i →
      identity_is_world_ipv6 i.sec_identity = true →
      (cfg.tunnelMode = false ∨ i.flag_skip_tunnel = true ∨
       i.flag_has_tunnel_ep = false) →
      st.ctx.tc_index_ingress_proxy = true →
      (handle_ipv6_cont cfg cenv t6 secctx true st).1 = CTX_ACT_OK) := by
  refine ⟨?_, ?_, ?_, ?_, ?_, ?_⟩
  · intro cfg cenv t4 secctx st hrev hfw hvtep hep hdst
    rcases hfw with hhf | hflag | ⟨cb, hbuf, hsad, hr1, hr2, hrv⟩
    · rcases hvtep with hvtep | hvtep <;> simp [handle_ipv4_cont, *]
    · by_cases hhf : cfg.enableHostFirewall <;>
        rcases hvtep with hvtep | hvtep <;> simp [handle_ipv4_cont, *]
    · by_cases hhf : cfg.enableHostFirewall
      · by_cases hneed : st.ctx.cb_from_host &&& FROM_HOST_FLAG_NEED_HOSTFW = 0 <;>
          rcases hvtep with hvtep | hvtep <;> simp [handle_ipv4_cont, *]
      · rcases hvtep with hvtep | hvtep <;> simp [handle_ipv4_cont, *]
  · intro cfg cenv t4 secctx st i hrev hfw hvtep hep hdst hworld htun hp1 hp2
    rcases hfw with hhf | hflag | ⟨cb, hbuf, hsad, hr1, hr2, hrv⟩
    · rcases hvtep with hvtep | hvtep <;> rcases htun with htun | htun | htun <;>
        simp [handle_ipv4_cont, *]
    · by_cases hhf : cfg.enableHostFirewall <;>
        rcases hvtep with hvtep | hvtep <;>
          rcases htun with htun | htun | htun <;> simp [handle_ipv4_cont, *]
    · by_cases hhf : cfg.enableHostFirewall
      · by_cases hneed : st.ctx.cb_from_host &&& FROM_HOST_FLAG_NEED_HOSTFW = 0 <;>
          rcases hvtep with hvtep | hvtep <;>
            rcases htun with htun | htun | htun <;> simp [handle_ipv4_cont, *]
      · rcases hvtep with hvtep | hvtep <;>
          rcases htun with htun | htun | htun <;> simp [handle_ipv4_cont, *]
  · intro cfg cenv t4 secctx st i hrev hfw hvtep hep hdst hworld htun hp1
    rcases hfw with hhf | hflag | ⟨cb, hbuf, hsad, hr1, hr2, hrv⟩
    · rcases hvtep with hvtep | hvtep <;> rcases htun with htun | htun | htun <;>
        simp [handle_ipv4_cont, *]
    · by_cases hhf : cfg.enableHostFirewall <;>
        rcases hvtep with hvtep | hvtep <;>
          rcases htun with htun | htun | htun <;> simp [handle_ipv4_cont, *]
    · by_cases hhf : cfg.enableHostFirewall
      · by_cases hneed : st.ctx.cb_from_host &&& FROM_HOST_FLAG_NEED_HOSTFW = 0 <;>
          rcases hvtep with hvtep | hvtep <;>
            rcases htun with htun | htun | htun <;> simp [handle_ipv4_cont, *]
      · rcases hvtep with hvtep | hvtep <;>
          rcases htun with htun | htun | htun <;> simp [handle_ipv4_cont, *]
  · intro cfg cenv t6 secctx st hrev hfw hep hdst
    rcases hfw with hhf | hflag | ⟨cb, hbuf, hsad, hr1, hr2, hrv⟩
    · simp [handle_ipv6_cont, *]
    · by_cases hhf : cfg.enableHostFirewall <;> simp [handle_ipv6_cont, *]
    · by_cases hhf : cfg.enableHostFirewall
      · by_cases hneed : st.ctx.cb_from_host &&& FROM_HOST_FLAG_NEED_HOSTFW = 0 <;>
          simp [handle_ipv6_cont, *]
      · simp [handle_ipv6_cont, *]
  · intro cfg cenv t6 secctx st i hrev hfw hep hdst hworld htun hp1 hp2
    rcases hfw with hhf | hflag | ⟨cb, hbuf, hsad, hr1, hr2, hrv⟩
    · rcases htun with htun | htun | htun <;> simp [handle_ipv6_cont, *]
    · by_cases hhf : cfg.enableHostFirewall <;>
        rcases htun with htun | htun | htun <;> simp [handle_ipv6_cont, *]
    · by_cases hhf : cfg.enableHostFirewall
      · by_cases hneed : st.ctx.cb_from_host &&& FROM_HOST_FLAG_NEED_HOSTFW = 0 <;>
          rcases htun with htun | htun | htun <;> simp [handle_ipv6_cont, *]
      · rcases htun with htun | htun | htun <;> simp [handle_ipv6_cont, *]
  · intro cfg cenv t6 secctx st i hrev hfw hep hdst hworld htun hp1
    rcases hfw with hhf | hflag | ⟨cb, hbuf, hsad, hr1, hr2, hrv⟩
    · rcases htun with htun | htun | htun <;> simp [handle_ipv6_cont, *]
    · by_cases hhf : cfg.enableHostFirewall <;>
        rcases htun with htun | htun | htun <;> simp [handle_ipv6_cont, *]
    · by_cases hhf : cfg.enableHostFirewall
      · by_cases hneed : st.ctx.cb_from_host &&& FROM_HOST_FLAG_NEED_HOSTFW = 0 <;>
          rcases htun with htun | htun | htun <;> simp [handle_ipv6_cont, *]
      · rcases htun with htun | htun | htun <;> simp [handle_ipv6_cont, *]

/-- C4 witness: concrete from-host packets with the host firewall disabled
and no VTEP entry, exercising all six conjuncts: missing IPv4/IPv6
remote-endpoint entry, world-identity entry without proxy provenance, and the
proxy exception. -/
theorem C4_unroutable_destinations_dropped_witness :
    (handle_ipv4_cont default { (default : ContEnv4) with revalidateOk := true }
      (fun _ => none) 0 true default).1 = DROP_UNROUTABLE ∧
    (handle_ipv4_cont default { (default : ContEnv4) with revalidateOk := true }
      (fun _ => some { sec_identity := 2, flag_skip_tunnel := false,
                       flag_has_tunnel_ep := false })
      0 true default).1 = DROP_UNROUTABLE ∧
    (handle_ipv4_cont default { (default : ContEnv4) with revalidateOk := true }
      (fun _ => some { sec_identity := 2, flag_skip_tunnel := false,
                       flag_has_tunnel_ep := false })
      0 true
      { (default : HostState) with
        ctx := { (default : Ctx) with tc_index_ingress_proxy := true } }).1 =
      CTX_ACT_OK ∧
    (handle_ipv6_cont default { (default : ContEnv6) with revalidateOk := true }
      (fun _ => none) 0 true default).1 = DROP_UNROUTABLE ∧
    (handle_ipv6_cont default { (default : ContEnv6) with revalidateOk := true }
      (fun _ => some { sec_identity := 2, flag_skip_tunnel := false,
                       flag_has_tunnel_ep := false })
      0 true default).1 = DROP_UNROUTABLE ∧
    (handle_ipv6_cont default { (default : ContEnv6) with revalidateOk := true }
      (fun _ => some { sec_identity := 2, flag_skip_tunnel := false,
                       flag_has_tunnel_ep := false })
      0 true
      { (default : HostState) with
        ctx := { (default : Ctx) with tc_index_ingress_proxy := true } }).1 =
      CTX_ACT_OK :=
  ⟨C4_unroutable_destinations_dropped.1 default _ (fun _ => none) 0 default
      rfl (Or.inl rfl) (Or.inl rfl) rfl rfl,
   C4_unroutable_destinations_dropped.2.1 default _
      (fun _ => some { sec_identity := 2, flag_skip_tunnel := false,
                       flag_has_tunnel_ep := false })
      0 default { sec_identity := 2, flag_skip_tunnel := false,
                  flag_has_tunnel_ep := false }
      rfl (Or.inl rfl) (Or.inl rfl) rfl rfl (by decide) (Or.inl rfl) rfl rfl,
   C4_unroutable_destinations_dropped.2.2.1 default _
      (fun _ => some { sec_identity := 2, flag_skip_tunnel := false,
                       flag_has_tunnel_ep := false })
      0 _ { sec_identity := 2, flag_skip_tunnel := false,
            flag_has_tunnel_ep := false }
      rfl (Or.inl rfl) (Or.inl rfl) rfl rfl (by decide) (Or.inl rfl) rfl,
   C4_unroutable_destinations_dropped.2.2.2.1 default _ (fun _ => none) 0
      default rfl (Or.inl rfl) rfl rfl,
   C4_unroutable_destinations_dropped.2.2.2.2.1 default _
      (fun _ => some { sec_identity := 2, flag_skip_tunnel := false,
                       flag_has_tunnel_ep := false })
      0 default { sec_identity := 2, flag_skip_tunnel := false,
                  flag_has_tunnel_ep := false }
      rfl (Or.inl rfl) rfl rfl (by decide) (Or.inl rfl) rfl rfl,
   C4_unroutable_destinations_dropped.2.2.2.2.2 default _
      (fun _ => some { sec_identity := 2, flag_skip_tunnel := false,
                       flag_has_tunnel_ep := false })
      0 _ { sec_identity := 2, flag_skip_tunnel := false,
            flag_has_tunnel_ep := false }
      rfl (Or.inl rfl) rfl rfl (by decide) (Or.inl rfl) rfl⟩

/-- C4 counterexample: the claim as stated is false.  A from-host packet whose
destination has no remote-endpoint entry but is a known local endpoint
flagged host-delivery is passed to the stack (CTX_ACT_OK) by the continuation
handler, not dropped as DROP_UNROUTABLE: the local-delivery stage runs before
the remote/tunnel decision. -/
theorem C4_unroutable_counterexample :
    (fun _ => (none : Option RemoteEndpointInfo)) (default : Ctx).daddr4 =
      none ∧
    (default : Ctx).tc_index_ingress_proxy = false ∧
    (default : Ctx).tc_index_egress_proxy = false ∧
    (handle_ipv4_cont default
      { (default : ContEnv4) with
        revalidateOk := true,
        epLookup := some { ifindex := 3, flags := 1, sec_id := 1 } }
      (fun _ => none) 0 true default).1 = CTX_ACT_OK ∧
    CTX_ACT_OK ≠ DROP_UNROUTABLE := by
  decide

/-! ## Claim C8 -/

/-- C8 (amended): for every packet whose destination matches a known local
endpoint flagged host-delivery, provided the host-firewall apply stage (if
engaged) lets the packet continue and, on the IPv6 from-network path, no SRv6
SID decapsulation applies, the continuation handler's verdict is CTX_ACT_OK
(pass to the OS stack), never a redirect — in both directions and both
address families. -/
theorem C8_host_delivery_to_stack :
    (∀ (cfg : Config) (cenv : ContEnv4)
       (t4 : Nat → Option RemoteEndpointInfo) (secctx : Nat)
       (from_host : Bool) (st : HostState) (ep : EndpointInfo),
      cenv.revalidateOk = true →
      (cfg.enableHostFirewall = false ∨
       st.ctx.cb_from_host &&& FROM_HOST_FLAG_NEED_HOSTFW = 0 ∨
       (∃ cb, st.buf4 = some cb ∧ cb.tuple_saddr ≠ 0 ∧
         (∀ hid, ¬cenv.egressApply cb hid < 0) ∧
         (∀ hid, cenv.egressApply cb hid ≠ CTX_ACT_REDIRECT) ∧
         ¬cenv.ingressApply cb < 0 ∧
         cenv.ingressApply cb ≠ CTX_ACT_REDIRECT ∧
         cenv.revalidateOk2 = true)) →
      cenv.epLookup = some ep →
      ep.flags &&& ENDPOINT_MASK_HOST_DELIVERY ≠ 0 →
      (handle_ipv4_cont cfg cenv t4 secctx from_host st).1 = CTX_ACT_OK) ∧
    (∀ (cfg : Config) (cenv : ContEnv6)
       (t6 : V6Addr → Option RemoteEndpointInfo) (secctx : Nat)
       (from_host : Bool) (st : HostState) (ep : EndpointInfo),
      cenv.revalidateOk = true →
      (cfg.enableHostFirewall = false ∨
       st.ctx.cb_from_host &&& FROM_HOST_FLAG_NEED_HOSTFW = 0 ∨
       (∃ cb, st.buf6 = some cb ∧
         ¬(cb.tuple_saddr.d1 = 0 ∧ cb.tuple_saddr.d2 = 0) ∧
         (∀ hid, ¬cenv.egressApply cb hid < 0) ∧
         (∀ hid, cenv.egressApply cb hid ≠ CTX_ACT_REDIRECT) ∧
         ¬cenv.ingressApply cb < 0 ∧
         cenv.ingressApply cb ≠ CTX_ACT_REDIRECT ∧
         cenv.revalidateOk2 = true)) →
      (cfg.enableSrv6 = false ∨ from_host = true ∨ cenv.isSrv6SidHit = false) →
      cenv.epLookup = some ep →
      ep.flags &&& ENDPOINT_MASK_HOST_DELIVERY ≠ 0 →
      (handle_ipv6_cont cfg cenv t6 secctx from_host st).1 = CTX_ACT_OK) := by
  constructor
  · intro cfg cenv t4 secctx from_host st ep hrev hfw hep hflag
    rcases hfw with hhf | hneed0 | ⟨cb, hbuf, hsad, hr1, hr2, hr3, hr4, hrv⟩
    · cases from_host <;> simp [handle_ipv4_cont, *]
    · cases from_host <;> by_cases hhf : cfg.enableHostFirewall <;>
        simp [handle_ipv4_cont, *]
    · cases from_host <;> by_cases hhf : cfg.enableHostFirewall
      · simp [handle_ipv4_cont, *]
      · simp [handle_ipv4_cont, *]
      · by_cases hneed : st.ctx.cb_from_host &&& FROM_HOST_FLAG_NEED_HOSTFW = 0 <;>
          simp [handle_ipv4_cont, *]
      · simp [handle_ipv4_cont, *]
  · intro cfg cenv t6 secctx from_host st ep hrev hfw hsrv hep hflag
    rcases hfw with hhf | hneed0 | ⟨cb, hbuf, hsad, hr1, hr2, hr3, hr4, hrv⟩
    · rcases hsrv with hsrv | hsrv | hsrv
      · cases from_host <;> simp [handle_ipv6_cont, *]
      · subst hsrv; simp [handle_ipv6_cont, *]
      · cases from_host <;> simp [handle_ipv6_cont, *]
    · rcases hsrv with hsrv | hsrv | hsrv
      · cases from_host <;> by_cases hhf : cfg.enableHostFirewall <;>
          simp [handle_ipv6_cont, *]
      · subst hsrv
        by_cases hhf : cfg.enableHostFirewall <;> simp [handle_ipv6_cont, *]
      · cases from_host <;> by_cases hhf : cfg.enableHostFirewall <;>
          simp [handle_ipv6_cont, *]
    · rcases hsrv with hsrv | hsrv | hsrv
      · cases from_host <;> by_cases hhf : cfg.enableHostFirewall <;>
          simp [handle_ipv6_cont, *]
      · subst hsrv
        by_cases hhf : cfg.enableHostFirewall <;> simp [handle_ipv6_cont, *]
      · cases from_host <;> by_cases hhf : cfg.enableHostFirewall <;>
          simp [handle_ipv6_cont, *]

/-- C8 witness: concrete IPv4 and IPv6 packets destined to a host-delivery
local endpoint (flags bit set), host firewall not engaged, passed to the OS
stack. -/
theorem C8_host_delivery_to_stack_witness :
    (handle_ipv4_cont default
      { (default : ContEnv4) with
        revalidateOk := true,
        epLookup := some { ifindex := 3, flags := 1, sec_id := 1 } }
      (fun _ => none) 0 true default).1 = CTX_ACT_OK ∧
    (handle_ipv6_cont default
      { (default : ContEnv6) with
        revalidateOk := true,
        epLookup := some { ifindex := 3, flags := 1, sec_id := 1 } }
      (fun _ => none) 0 true default).1 = CTX_ACT_OK :=
  ⟨C8_host_delivery_to_stack.1 default _ (fun _ => none) 0 true default
      { ifindex := 3, flags := 1, sec_id := 1 }
      rfl (Or.inl rfl) rfl (by decide),
   C8_host_delivery_to_stack.2 default _ (fun _ => none) 0 true default
      { ifindex := 3, flags := 1, sec_id := 1 }
      rfl (Or.inl rfl) (Or.inl rfl) rfl (by decide)⟩

/-- C8 counterexample: the claim as stated is false.  With the host firewall
enabled and the pre-check having flagged enforcement, the apply phase can
return a proxy-interception redirect; the continuation handler then returns
CTX_ACT_REDIRECT even though the destination matches a host-delivery local
endpoint — the verdict is a redirect, not CTX_ACT_OK. -/
theorem C8_host_delivery_counterexample :
    (1 : Nat) &&& ENDPOINT_MASK_HOST_DELIVERY ≠ 0 ∧
    (handle_ipv4_cont { (default : Config) with enableHostFirewall := true }
      { (default : ContEnv4) with
        revalidateOk := true,
        egressApply := fun _ _ => CTX_ACT_REDIRECT,
        epLookup := some { ifindex := 3, flags := 1, sec_id := 1 } }
      (fun _ => none) 0 true
      { (default : HostState) with
        ctx := { (default : Ctx) with cb_from_host := 2 },
        buf4 := some { tuple_saddr := 9, ret := 0, rest := 0 } }).1 =
      CTX_ACT_REDIRECT ∧
    CTX_ACT_REDIRECT ≠ CTX_ACT_OK := by
  decide

/-! ## Claim C5 -/

/-- C5: in fib_do_redirect, when the FIB lookup result is
BPF_FIB_LKUP_RET_NO_NEIGH and the optional L2-header synthesis does not fail:
if the on-demand neighbour resolver is available it is always used — the
verdict is the redirect_neigh outcome, with the next-hop parameters passed
through from fib_params when present; otherwise the static neighbour map is
consulted (when allowed) for the destination's L2 address, and if no entry
exists the function returns DROP_NO_FIB with the extended error set to
BPF_FIB_MAP_NO_NEIGH. -/
theorem C5_fib_no_neigh_resolution :
    (∀ (env : FibEnv) (needs_l2_check : Bool) (fp : FibParams)
       (allow_neigh_map : Bool) (oif : Nat) (ext0 : Int),
      (needs_l2_check = false ∨ env.ethHlenZero = false ∨
       (env.changeHeadFails = false ∧ env.storeProtoFails = false)) →
      env.neighAvailable = true →
      fib_do_redirect env needs_l2_check (some fp) allow_neigh_map
          BPF_FIB_LKUP_RET_NO_NEIGH oif ext0 =
        (env.redirectNeigh oif
          (some { nh_family := fp.family, ipv6_nh := fp.ipv6_dst }), ext0)) ∧
    (∀ (env : FibEnv) (needs_l2_check : Bool) (allow_neigh_map : Bool)
       (oif : Nat) (ext0 : Int),
      (needs_l2_check = false ∨ env.ethHlenZero = false ∨
       (env.changeHeadFails = false ∧ env.storeProtoFails = false)) →
      env.neighAvailable = true →
      fib_do_redirect env needs_l2_check none allow_neigh_map
          BPF_FIB_LKUP_RET_NO_NEIGH oif ext0 =
        (env.redirectNeigh oif none, ext0)) ∧
    (∀ (env : FibEnv) (needs_l2_check : Bool) (fp : FibParams) (oif : Nat)
       (ext0 : Int),
      (needs_l2_check = false ∨ env.ethHlenZero = false ∨
       (env.changeHeadFails = false ∧ env.storeProtoFails = false)) →
      env.neighAvailable = false →
      fp.family = AF_INET → env.neighMap4 fp.ipv4_dst = none →
      fib_do_redirect env needs_l2_check (some fp) true
          BPF_FIB_LKUP_RET_NO_NEIGH oif ext0 =
        (DROP_NO_FIB, BPF_FIB_MAP_NO_NEIGH)) ∧
    (∀ (env : FibEnv) (needs_l2_check : Bool) (fp : FibParams) (oif : Nat)
       (ext0 : Int),
      (needs_l2_check = false ∨ env.ethHlenZero = false ∨
       (env.changeHeadFails = false ∧ env.storeProtoFails = false)) →
      env.neighAvailable = false →
      fp.family ≠ AF_INET → env.neighMap6 fp.ipv6_dst = none →
      fib_do_redirect env needs_l2_check (some fp) true
          BPF_FIB_LKUP_RET_NO_NEIGH oif ext0 =
        (DROP_NO_FIB, BPF_FIB_MAP_NO_NEIGH)) := by
  have hne : (BPF_FIB_LKUP_RET_NO_NEIGH : Int) ≠ BPF_FIB_LKUP_RET_SUCCESS := by
    decide
  refine ⟨?_, ?_, ?_, ?_⟩
  · intro env needs_l2_check fp allow oif ext0 hl2 hav
    rcases hl2 with h | h | ⟨h, h2⟩ <;> simp [fib_do_redirect, *]
  · intro env needs_l2_check allow oif ext0 hl2 hav
    rcases hl2 with h | h | ⟨h, h2⟩ <;> simp [fib_do_redirect, *]
  · intro env needs_l2_check fp oif ext0 hl2 hav hfam hmap
    rcases hl2 with h | h | ⟨h, h2⟩ <;> simp [fib_do_redirect, *]
  · intro env needs_l2_check fp oif ext0 hl2 hav hfam hmap
    rcases hl2 with h | h | ⟨h, h2⟩ <;> simp [fib_do_redirect, *]

/-- C5 witness: a concrete redirect with the resolver available uses
redirect_neigh (oracle value 42); scenario D — resolver unavailable, static
neighbour table empty — yields DROP_NO_FIB with extended error
BPF_FIB_MAP_NO_NEIGH, for an IPv4 and an IPv6 destination. -/
theorem C5_fib_no_neigh_resolution_witness :
    fib_do_redirect
      { (default : FibEnv) with
        neighAvailable := true, redirectNeigh := fun _ _ => 42 }
      false
      (some { family := 2, ipv4_dst := 7, ipv6_dst := { d1 := 0, d2 := 0 },
              dmac := 0, smac := 0 })
      false BPF_FIB_LKUP_RET_NO_NEIGH 4 0 = (42, 0) ∧
    fib_do_redirect
      { (default : FibEnv) with
        neighAvailable := true, redirectNeigh := fun _ _ => 42 }
      false none false BPF_FIB_LKUP_RET_NO_NEIGH 4 0 = (42, 0) ∧
    fib_do_redirect
      { (default : FibEnv) with
        neighMap4 := fun _ => none, neighMap6 := fun _ => none }
      false
      (some { family := 2, ipv4_dst := 7, ipv6_dst := { d1 := 0, d2 := 0 },
              dmac := 0, smac := 0 })
      true BPF_FIB_LKUP_RET_NO_NEIGH 4 0 =
      (DROP_NO_FIB, BPF_FIB_MAP_NO_NEIGH) ∧
    fib_do_redirect
      { (default : FibEnv) with
        neighMap4 := fun _ => none, neighMap6 := fun _ => none }
      false
      (some { family := 10, ipv4_dst := 0, ipv6_dst := { d1 := 7, d2 := 7 },
              dmac := 0, smac := 0 })
      true BPF_FIB_LKUP_RET_NO_NEIGH 4 0 =
      (DROP_NO_FIB, BPF_FIB_MAP_NO_NEIGH) :=
  ⟨C5_fib_no_neigh_resolution.1 _ false
      { family := 2, ipv4_dst := 7, ipv6_dst := { d1 := 0, d2 := 0 },
        dmac := 0, smac := 0 }
      false 4 0 (Or.inl rfl) rfl,
   C5_fib_no_neigh_resolution.2.1 _ false false 4 0 (Or.inl rfl) rfl,
   C5_fib_no_neigh_resolution.2.2.1 _ false
      { family := 2, ipv4_dst := 7, ipv6_dst := { d1 := 0, d2 := 0 },
        dmac := 0, smac := 0 }
      4 0 (Or.inl rfl) rfl rfl rfl,
   C5_fib_no_neigh_resolution.2.2.2 _ false
      { family := 10, ipv4_dst := 0, ipv6_dst := { d1 := 7, d2 := 7 },
        dmac := 0, smac := 0 }
      4 0 (Or.inl rfl) rfl (by decide) rfl⟩

/-! ## Claim C6 -/

/-- C6: for every frame carrying a non-zero VLAN id, cil_from_netdev and
cil_to_netdev drop the frame as DROP_VLAN_FILTERED when (ifindex, vlan id) is
not in the static allow-list, and return CTX_ACT_OK with the frame unmodified
when it is allow-listed; in particular VLAN id 4002 on ifindex 116 (whose
allow-list is 4000/4001) is dropped as VLAN-filtered. -/
theorem C6_vlan_filter :
    (∀ (rest : Ctx → Int × Option DropNotif × Ctx) (ctx : Ctx),
      ctx.vlan_present = true → ctx.vlan_tci &&& 0xfff ≠ 0 →
      allow_vlan ctx.ifindex (ctx.vlan_tci &&& 0xfff) = true →
      cil_from_netdev rest ctx = (CTX_ACT_OK, none, ctx)) ∧
    (∀ (rest : Ctx → Int × Option DropNotif × Ctx) (ctx : Ctx),
      ctx.vlan_present = true → ctx.vlan_tci &&& 0xfff ≠ 0 →
      allow_vlan ctx.ifindex (ctx.vlan_tci &&& 0xfff) = false →
      cil_from_netdev rest ctx =
        (CTX_ACT_DROP,
         some { src_id := UNKNOWN_ID, reason := DROP_VLAN_FILTERED,
                ext_err := 0 }, ctx)) ∧
    (∀ (cfg : Config) (env : ToNetdevEnv) (ctx : Ctx),
      ctx.vlan_present = true → ctx.vlan_tci &&& 0xfff ≠ 0 →
      allow_vlan ctx.ifindex (ctx.vlan_tci &&& 0xfff) = true →
      (cil_to_netdev cfg env ctx).1 = CTX_ACT_OK ∧
      (cil_to_netdev cfg env ctx).2.1 = none ∧
      (cil_to_netdev cfg env ctx).2.2.frame = ctx.frame) ∧
    (∀ (cfg : Config) (env : ToNetdevEnv) (ctx : Ctx),
      ctx.vlan_present = true → ctx.vlan_tci &&& 0xfff ≠ 0 →
      allow_vlan ctx.ifindex (ctx.vlan_tci &&& 0xfff) = false →
      (cil_to_netdev cfg env ctx).1 = CTX_ACT_DROP ∧
      ∃ n, (cil_to_netdev cfg env ctx).2.1 = some n ∧
        n.reason = DROP_VLAN_FILTERED) ∧
    (allow_vlan 116 4002 = false ∧ allow_vlan 116 4000 = true ∧
     allow_vlan 116 4001 = true ∧
     cil_from_netdev (fun c => (CTX_ACT_OK, none, c))
        { (default : Ctx) with
          vlan_present := true, vlan_tci := 4002, ifindex := 116 } =
       (CTX_ACT_DROP,
        some { src_id := UNKNOWN_ID, reason := DROP_VLAN_FILTERED,
               ext_err := 0 },
        { (default : Ctx) with
          vlan_present := true, vlan_tci := 4002, ifindex := 116 })) := by
  refine ⟨?_, ?_, ?_, ?_, ?_⟩
  · intro rest ctx hp hv ha
    simp [cil_from_netdev, *]
  · intro rest ctx hp hv ha
    simp [cil_from_netdev, *]
  · intro cfg env ctx hp hv ha
    refine ⟨?_, ?_, ?_⟩ <;> simp [cil_to_netdev, Ctx.frame, clearMeta, *]
  · intro cfg env ctx hp hv ha
    refine ⟨?_, ?_⟩ <;> simp [cil_to_netdev, clearMeta, *]
  · refine ⟨by decide, by decide, by decide, by decide⟩

/-- C6 witness: an allow-listed frame (VLAN 4000 on ifindex 116) passes both
entry points unmodified, and a filtered frame (VLAN 4002 on ifindex 116) is
dropped by cil_to_netdev as well. -/
theorem C6_vlan_filter_witness :
    cil_from_netdev (fun c => (CTX_ACT_OK, none, c))
      { (default : Ctx) with
        vlan_present := true, vlan_tci := 4000, ifindex := 116 } =
      (CTX_ACT_OK, none,
       { (default : Ctx) with
         vlan_present := true, vlan_tci := 4000, ifindex := 116 }) ∧
    (cil_to_netdev default default
      { (default : Ctx) with
        vlan_present := true, vlan_tci := 4000, ifindex := 116 }).1 =
      CTX_ACT_OK ∧
    (cil_to_netdev default default
      { (default : Ctx) with
        vlan_present := true, vlan_tci := 4002, ifindex := 116 }).1 =
      CTX_ACT_DROP :=
  ⟨C6_vlan_filter.1 (fun c => (CTX_ACT_OK, none, c)) _ rfl (by decide)
      (by decide),
   (C6_vlan_filter.2.2.1 default default _ rfl (by decide) (by decide)).1,
   (C6_vlan_filter.2.2.2.1 default default _ rfl (by decide) (by decide)).1⟩

/-! ## Claim C7 -/

/-- C7: for every IPv4 or IPv6 packet processed by do_netdev, a failure of
the chain continuation (tail_call_internal into the protocol handler) is
converted into the exit code CTX_ACT_OK — pass to the OS stack, not a drop
verdict — after emitting a drop notification carrying the error reason and
the extended error. -/
theorem C7_tail_call_failure_passes_to_stack :
    (∀ (cfg : Config) (env : NetdevEnv)
       (t4 : Nat → Option RemoteEndpointInfo)
       (t6 : V6Addr → Option RemoteEndpointInfo) (ctx : Ctx)
       (identity : Nat) (from_host : Bool) (e : Int),
      env.revalidateOk = true → env.tailCall4 = some e →
      (do_netdev cfg env t4 t6 ctx ETH_P_IP identity from_host).1 =
        CTX_ACT_OK ∧
      (do_netdev cfg env t4 t6 ctx ETH_P_IP identity from_host).2.1 =
        some { src_id := (resolve_srcid_ipv4 cfg t4 (clearMeta ctx) identity 0
                            from_host).1,
               reason := e, ext_err := env.extErr }) ∧
    (∀ (cfg : Config) (env : NetdevEnv)
       (t4 : Nat → Option RemoteEndpointInfo)
       (t6 : V6Addr → Option RemoteEndpointInfo) (ctx : Ctx)
       (identity : Nat) (from_host : Bool) (e : Int),
      env.revalidateOk = true → env.tailCall6 = some e →
      (do_netdev cfg env t4 t6 ctx ETH_P_IPV6 identity from_host).1 =
        CTX_ACT_OK ∧
      (do_netdev cfg env t4 t6 ctx ETH_P_IPV6 identity from_host).2.1 =
        some { src_id := (resolve_srcid_ipv6 cfg t6 (clearMeta ctx) identity 0
                            from_host).1,
               reason := e, ext_err := env.extErr }) := by
  have h1 : ETH_P_IP ≠ ETH_P_ARP := by decide
  have h2 : ETH_P_IP ≠ ETH_P_IPV6 := by decide
  have h3 : ETH_P_IPV6 ≠ ETH_P_ARP := by decide
  constructor
  · intro cfg env t4 t6 ctx identity from_host e hrev htc
    constructor <;> simp [do_netdev, *]
  · intro cfg env t4 t6 ctx identity from_host e hrev htc
    constructor <;> simp [do_netdev, *]

/-- C7 witness: a concrete failed continuation (missed tail call) on the IPv4
and IPv6 paths exits with CTX_ACT_OK and a notification carrying the error. -/
theorem C7_tail_call_failure_witness :
    (do_netdev default
      { (default : NetdevEnv) with
        revalidateOk := true, tailCall4 := some DROP_MISSED_TAIL_CALL }
      (fun _ => none) (fun _ => none) default ETH_P_IP 0 false).1 =
      CTX_ACT_OK ∧
    (do_netdev default
      { (default : NetdevEnv) with
        revalidateOk := true, tailCall4 := some DROP_MISSED_TAIL_CALL }
      (fun _ => none) (fun _ => none) default ETH_P_IP 0 false).2.1 =
      some { src_id := (resolve_srcid_ipv4 default (fun _ => none)
                          (clearMeta default) 0 0 false).1,
             reason := DROP_MISSED_TAIL_CALL, ext_err := 0 } ∧
    (do_netdev default
      { (default : NetdevEnv) with
        revalidateOk := true, tailCall6 := some DROP_MISSED_TAIL_CALL }
      (fun _ => none) (fun _ => none) default ETH_P_IPV6 0 false).1 =
      CTX_ACT_OK :=
  ⟨(C7_tail_call_failure_passes_to_stack.1 default _ (fun _ => none)
      (fun _ => none) default 0 false DROP_MISSED_TAIL_CALL rfl rfl).1,
   (C7_tail_call_failure_passes_to_stack.1 default _ (fun _ => none)
      (fun _ => none) default 0 false DROP_MISSED_TAIL_CALL rfl rfl).2,
   (C7_tail_call_failure_passes_to_stack.2 default _ (fun _ => none)
      (fun _ => none) default 0 false DROP_MISSED_TAIL_CALL rfl rfl).1⟩

/-! ## Claim C10 -/

/-- C10: in cil_to_netdev, every packet with the snat-done flag set skips the
host-firewall egress evaluation entirely, even when the host firewall is
enabled: the outcome does not depend on the handle_to_netdev_ipv4/ipv6
results (or the ethertype gate guarding them), and equals the outcome of the
same entry point with the host firewall disabled. -/
theorem C10_snat_done_skips_host_firewall
    (cfg : Config) (env : ToNetdevEnv) (ctx : Ctx) (a b : Int)
    (hhf : cfg.enableHostFirewall = true) (hsnat : ctx.snat_done = true) :
    cil_to_netdev cfg { env with toNetdevIpv4 := a, toNetdevIpv6 := b } ctx =
      cil_to_netdev cfg env ctx ∧
    cil_to_netdev cfg env ctx =
      cil_to_netdev { cfg with enableHostFirewall := false } env ctx := by
  constructor <;> simp [cil_to_netdev, clearMeta, *]

/-- C10 witness: a concrete snat-done packet; the host-firewall handlers
(here one returning a drop, one returning CTX_ACT_OK) do not influence the
verdict, which matches the firewall-disabled run. -/
theorem C10_snat_done_skips_host_firewall_witness :
    cil_to_netdev
      { (default : Config) with enableHostFirewall := true }
      { (default : ToNetdevEnv) with
        toNetdevIpv4 := DROP_UNROUTABLE, toNetdevIpv6 := DROP_UNROUTABLE }
      { (default : Ctx) with snat_done := true, proto := ETH_P_IP } =
      cil_to_netdev { (default : Config) with enableHostFirewall := true }
        default
        { (default : Ctx) with snat_done := true, proto := ETH_P_IP } ∧
    cil_to_netdev { (default : Config) with enableHostFirewall := true }
      default { (default : Ctx) with snat_done := true, proto := ETH_P_IP } =
      cil_to_netdev
        { ({ (default : Config) with enableHostFirewall := true } : Config)
          with enableHostFirewall := false }
        default
        { (default : Ctx) with snat_done := true, proto := ETH_P_IP } :=
  C10_snat_done_skips_host_firewall
    { (default : Config) with enableHostFirewall := true } default
    { (default : Ctx) with snat_done := true, proto := ETH_P_IP }
    DROP_UNROUTABLE DROP_UNROUTABLE rfl rfl

end CiliumHost
